import Mathlib

/-!
# Gyro sample conditioning and filter cascade (`src/main/sensors/gyro.c`)

A shallow embedding of the gyro module of the flight controller.  The module's
file-scope variables become the fields of one explicit state record that every
operation takes and returns.  Everything the module calls but does not define
(sensor drivers, filter primitives, the zero-calibration accumulator, the
alignment helpers, the notch banks, the spectral analyser, the smoother, the
floating-point arithmetic itself) is collected in the record `Externals`; the
conditional-compilation switches are collected in `BuildConfig`.  Calls that
leave the module and whose occurrence matters are recorded in a trace.
-/

namespace Gyro

/-! ## Machine integers -/

/-- Value of a mathematical integer after storage in an `int32_t`. -/
def toInt32 (x : Int) : Int := (x + 2147483648) % 4294967296 - 2147483648

/-- Value of a mathematical integer after storage in an `int16_t`. -/
def toInt16 (x : Int) : Int := (x + 32768) % 65536 - 32768

/-- Range of an `int16_t`. -/
def isInt16 (x : Int) : Prop := -32768 ≤ x ∧ x ≤ 32767

instance (x : Int) : Decidable (isInt16 x) := by
  unfold isInt16
  exact inferInstance

/-! ## Three-axis arrays (`T v[XYZ_AXIS_COUNT]`, X = 0, Y = 1, Z = 2) -/

/-- An array indexed by axis. -/
structure Vec3 (α : Type) where
  x : α
  y : α
  z : α
deriving DecidableEq, Repr

/-- Array read `v[axis]`. -/
def Vec3.get {α : Type} (v : Vec3 α) (axis : Fin 3) : α :=
  match axis with
  | 0 => v.x
  | 1 => v.y
  | 2 => v.z

/-- Array write `v[axis] = a`. -/
def Vec3.set {α : Type} (v : Vec3 α) (axis : Fin 3) (a : α) : Vec3 α :=
  match axis with
  | 0 => { v with x := a }
  | 1 => { v with y := a }
  | 2 => { v with z := a }

/-- Componentwise image. -/
def Vec3.map {α β : Type} (f : α → β) (v : Vec3 α) : Vec3 β :=
  ⟨f v.x, f v.y, f v.z⟩

/-- The loop `for (int axis = 0; axis < XYZ_AXIS_COUNT; axis++) body`. -/
def forAxes {σ : Type} (body : Fin 3 → σ → σ) (s : σ) : σ :=
  body 2 (body 1 (body 0 s))

/-! ## Build configuration -/

/-- The preprocessor switches that `gyro.c` tests. -/
structure BuildConfig where
  USE_IMU_MPU6000 : Bool
  USE_IMU_MPU6500 : Bool
  USE_IMU_MPU9250 : Bool
  USE_IMU_BMI160 : Bool
  USE_IMU_BMI088 : Bool
  USE_IMU_ICM20689 : Bool
  USE_IMU_ICM42605 : Bool
  USE_IMU_BMI270 : Bool
  USE_IMU_LSM6DXX : Bool
  USE_IMU_FAKE : Bool
  USE_DUAL_GYRO : Bool
  USE_DYNAMIC_FILTERS : Bool
  USE_GYRO_KALMAN : Bool
  USE_RPM_FILTER : Bool
  USE_SIMULATOR : Bool
deriving DecidableEq, Repr

/-! ## Data model -/

/-- Sensor identities (`gyroSensor_e`), as named in `gyroDetect`. -/
inductive gyroSensor_e where
  | GYRO_NONE
  | GYRO_AUTODETECT
  | GYRO_MPU6000
  | GYRO_MPU6500
  | GYRO_MPU9250
  | GYRO_BMI160
  | GYRO_BMI088
  | GYRO_ICM20689
  | GYRO_ICM42605
  | GYRO_BMI270
  | GYRO_LSM6DXX
  | GYRO_FAKE
deriving DecidableEq, Repr

open gyroSensor_e

/-- The functions a `filterApplyFnPtr` variable of this module can hold:
`initGyroFilter` stores one of these three and nothing else does. -/
inductive filterApplyFnPtr where
  | nullFilterApply
  | pt1FilterApply
  | biquadFilterApply
deriving DecidableEq, Repr

/-- Calls that leave the module, in the order they happen. -/
inductive Event where
  | detect (hw : gyroSensor_e) (found : Bool)
  | initFn
  | sensorsSet
  | zeroCalibrationStartV
  | zeroCalibrationAddValueV
  | schedulerResetTaskStatistics
deriving DecidableEq, Repr

/-- The published sensor object `gyro`. -/
structure gyro_t (F : Type) where
  initialized : Bool
  targetLooptime : Nat
  gyroADCf : Vec3 F
  gyroRaw : Vec3 F
deriving DecidableEq

/-- The device record `gyroDev_t`.  Function pointers are kept as indices into
the driver table of `Externals`; `temperatureFn` may be null.  `busDev` stands
for the driver-private part of the record. -/
structure gyroDev_t (F B : Type) where
  busDev : B
  initFn : Nat
  readFn : Nat
  temperatureFn : Option Nat
  scale : F
  gyroADCRaw : Vec3 Int
  gyroZero : Vec3 Int
  imuSensorToUse : Nat
  lpf : Nat
  requestedSampleIntervalUs : Nat
  sampleRateIntervalUs : Nat
  gyroAlign : Nat
deriving DecidableEq

/-- The accumulator `zeroCalibrationVector_t`: the field `params.state`, which
`gyro.c` writes directly, and the remainder, which only the calibration
library touches. -/
structure zeroCalibrationVector_t (A : Type) where
  params_state : Nat
  body : A
deriving DecidableEq

/-- The fields of `gyroConfig_t` that the module reads or writes. -/
structure gyroConfig_t where
  gyro_lpf : Nat
  gyro_anti_aliasing_lpf_hz : Nat
  gyro_anti_aliasing_lpf_type : Nat
  gyro_to_use : Nat
  gyro_main_lpf_hz : Nat
  gyro_main_lpf_type : Nat
  dynamicGyroNotchMinHz : Nat
  kalman_q : Nat
  kalmanEnabled : Bool
  init_gyro_cal_enabled : Bool
  gyro_zero_cal : Vec3 Int
deriving DecidableEq, Repr

/-- Everything `gyro.c` uses and does not define. -/
structure Externals where
  /-- The type `float`. -/
  F : Type
  /-- The literal `0.0f`, also the value of zeroed memory read as a float. -/
  fzero : F
  /-- The literal `3.0f`. -/
  fthree : F
  /-- Conversion of an integer to `float`. -/
  ofInt : Int → F
  /-- Conversion of a `float` to `int16_t`. -/
  floatToInt16 : F → Int
  fmul : F → F → F
  fadd : F → F → F
  fdiv : F → F → F
  fabsf : F → F
  lrintf : F → Int
  DEGREES_TO_RADIANS : F → F
  US2S : Nat → F
  BIQUAD_Q : F
  ALIGN_DEFAULT : Nat
  FILTER_PT1 : Nat
  FILTER_BIQUAD : Nat
  FILTER_LPF : Nat
  ZERO_CALIBRATION_DONE : Nat
  TASK_GYRO_LOOPTIME : Nat
  CALIBRATING_GYRO_TIME_MS : Nat
  CALIBRATING_GYRO_MORON_THRESHOLD : F
  busDevice_t : Type
  filter_t : Type
  calBody_t : Type
  gyroAnalyseState_t : Type
  dynamicGyroNotchState_t : Type
  secondaryDynamicGyroNotchState_t : Type
  /-- State of the RPM filter module. -/
  rpm_t : Type
  /-- State of the Kalman smoother module. -/
  kalman_t : Type
  /-- What the module only reads from its surroundings: clock, arming flags,
  loop times. -/
  env_t : Type
  /-- The detect function of each driver (`mpu6000GyroDetect`, ...). -/
  detectFn : gyroSensor_e → gyroDev_t F busDevice_t → Bool × gyroDev_t F busDevice_t
  /-- Call through `dev->initFn`. -/
  callInitFn : Nat → gyroDev_t F busDevice_t → gyroDev_t F busDevice_t
  /-- Call through `dev->readFn`. -/
  callReadFn : Nat → gyroDev_t F busDevice_t → Bool × gyroDev_t F busDevice_t
  /-- Call through `dev->temperatureFn`, which also receives the address of
  the temperature cell. -/
  callTemperatureFn : Nat → gyroDev_t F busDevice_t → Int →
    Bool × gyroDev_t F busDevice_t × Int
  applySensorAlignment : Vec3 Int → Nat → Vec3 Int
  applyBoardAlignment : Vec3 Int → Vec3 Int
  nullFilterApply : filter_t → F → filter_t × F
  pt1FilterApply : filter_t → F → filter_t × F
  biquadFilterApply : filter_t → F → filter_t × F
  pt1FilterInit : filter_t → Nat → F → filter_t
  biquadFilterInitLPF : filter_t → Nat → Nat → filter_t
  pt1FilterUpdateCutoff : filter_t → F → filter_t
  biquadFilterUpdate : filter_t → F → Nat → F → Nat → filter_t
  zeroCalibrationStartV : env_t → zeroCalibrationVector_t calBody_t → Nat → F → Bool →
    zeroCalibrationVector_t calBody_t
  zeroCalibrationIsCompleteV : zeroCalibrationVector_t calBody_t → Bool
  zeroCalibrationIsSuccessfulV : zeroCalibrationVector_t calBody_t → Bool
  zeroCalibrationAddValueV : env_t → zeroCalibrationVector_t calBody_t → Vec3 F →
    zeroCalibrationVector_t calBody_t
  /-- Writes the zero vector through its second argument. -/
  zeroCalibrationGetZeroV : zeroCalibrationVector_t calBody_t → Vec3 F → Vec3 F
  setGyroCalibration : gyroConfig_t → Vec3 Int → gyroConfig_t
  getLooptime : env_t → Nat
  getGyroLooptime : env_t → Nat
  ARMING_FLAG_SIMULATOR_MODE_HITL : env_t → Bool
  rpmFilterGyroApply : rpm_t → Fin 3 → F → rpm_t × F
  gyroKalmanInitialize : kalman_t → Nat → kalman_t
  gyroKalmanUpdate : kalman_t → Fin 3 → F → kalman_t × F
  dynamicGyroNotchFiltersInit : gyroConfig_t → env_t → dynamicGyroNotchState_t →
    dynamicGyroNotchState_t
  secondaryDynamicGyroNotchFiltersInit : gyroConfig_t → env_t →
    secondaryDynamicGyroNotchState_t → secondaryDynamicGyroNotchState_t
  gyroDataAnalyseStateInit : gyroAnalyseState_t → Nat → Nat → gyroAnalyseState_t
  /-- The field `dynamicGyroNotchState.enabled`. -/
  dynamicGyroNotchEnabled : dynamicGyroNotchState_t → Bool
  gyroDataAnalysePush : gyroAnalyseState_t → Fin 3 → F → gyroAnalyseState_t
  dynamicGyroNotchFiltersApply : dynamicGyroNotchState_t → Fin 3 → F →
    dynamicGyroNotchState_t × F
  secondaryDynamicGyroNotchFiltersApply : secondaryDynamicGyroNotchState_t → Fin 3 → F →
    secondaryDynamicGyroNotchState_t × F
  gyroDataAnalyse : gyroAnalyseState_t → gyroAnalyseState_t
  /-- The field `gyroAnalyseState.filterUpdateExecute`. -/
  filterUpdateExecute : gyroAnalyseState_t → Bool
  /-- The field `gyroAnalyseState.filterUpdateAxis`. -/
  filterUpdateAxis : gyroAnalyseState_t → Nat
  /-- The field `gyroAnalyseState.centerFrequency[axis]`. -/
  centerFrequency : gyroAnalyseState_t → Nat → Nat
  dynamicGyroNotchFiltersUpdate : dynamicGyroNotchState_t → Nat → Nat →
    dynamicGyroNotchState_t
  secondaryDynamicGyroNotchFiltersUpdate : secondaryDynamicGyroNotchState_t → Nat → Nat →
    secondaryDynamicGyroNotchState_t

/-- The file-scope state of `gyro.c` (`MAX_GYRO_COUNT` is 1, so each array of
that length is one cell), the configuration group it reads, and the state of
the modules it drives. -/
structure gyroState (E : Externals) where
  gyro : gyro_t E.F
  gyroDev0 : gyroDev_t E.F E.busDevice_t
  gyroTemperature0 : Int
  gyroCalibration0 : zeroCalibrationVector_t E.calBody_t
  gyroLpfApplyFn : filterApplyFnPtr
  gyroLpfState : Vec3 E.filter_t
  gyroLpf2ApplyFn : filterApplyFnPtr
  gyroLpf2State : Vec3 E.filter_t
  gyroAnalyseState : E.gyroAnalyseState_t
  dynamicGyroNotchState : E.dynamicGyroNotchState_t
  secondaryDynamicGyroNotchState : E.secondaryDynamicGyroNotchState_t
  gyroConfig : gyroConfig_t
  detectedSensorsGyro : gyroSensor_e
  rpmFilter : E.rpm_t
  kalman : E.kalman_t
  env : E.env_t
  trace : List Event

/-- The device record of a state. -/
abbrev gyroDev (E : Externals) : Type := gyroDev_t E.F E.busDevice_t

/-- Result of the detection chain: identity, device record, trace. -/
abbrev DetectResult (E : Externals) : Type := gyroSensor_e × gyroDev E × List Event

/-- Call through a `filterApplyFnPtr`. -/
def filterApplyFnPtr.call (E : Externals) (fn : filterApplyFnPtr) (st : E.filter_t) (input : E.F) :
    E.filter_t × E.F :=
  match fn with
  | .nullFilterApply => E.nullFilterApply st input
  | .pt1FilterApply => E.pt1FilterApply st input
  | .biquadFilterApply => E.biquadFilterApply st input

/-! ## `gyroDetect` -/

/-- One `case` of the switch in `gyroDetect`, present only when its driver is
compiled in: probe; on success `break` with this identity, else fall through
to the code of the next case. -/
def detectCase (E : Externals) (compiled : Bool) (hw : gyroSensor_e)
    (next : gyroDev E → List Event → DetectResult E) (dev : gyroDev E) (tr : List Event) :
    DetectResult E :=
  if compiled then
    let r := E.detectFn hw dev
    if r.1 then (hw, r.2, tr ++ [Event.detect hw true])
    else next r.2 (tr ++ [Event.detect hw false])
  else next dev tr

/-- Labels `default:` and `case GYRO_NONE:`. -/
def caseNONE (E : Externals) (dev : gyroDev E) (tr : List Event) : DetectResult E :=
  (GYRO_NONE, dev, tr)

/-- Label `case GYRO_FAKE:`. -/
def caseFAKE (b : BuildConfig) (E : Externals) : gyroDev E → List Event → DetectResult E :=
  detectCase E b.USE_IMU_FAKE GYRO_FAKE (caseNONE E)

/-- Label `case GYRO_LSM6DXX:`. -/
def caseLSM6DXX (b : BuildConfig) (E : Externals) : gyroDev E → List Event → DetectResult E :=
  detectCase E b.USE_IMU_LSM6DXX GYRO_LSM6DXX (caseFAKE b E)

/-- Label `case GYRO_BMI270:`. -/
def caseBMI270 (b : BuildConfig) (E : Externals) : gyroDev E → List Event → DetectResult E :=
  detectCase E b.USE_IMU_BMI270 GYRO_BMI270 (caseLSM6DXX b E)

/-- Label `case GYRO_ICM42605:`. -/
def caseICM42605 (b : BuildConfig) (E : Externals) : gyroDev E → List Event → DetectResult E :=
  detectCase E b.USE_IMU_ICM42605 GYRO_ICM42605 (caseBMI270 b E)

/-- Label `case GYRO_ICM20689:`. -/
def caseICM20689 (b : BuildConfig) (E : Externals) : gyroDev E → List Event → DetectResult E :=
  detectCase E b.USE_IMU_ICM20689 GYRO_ICM20689 (caseICM42605 b E)

/-- Label `case GYRO_BMI088:`. -/
def caseBMI088 (b : BuildConfig) (E : Externals) : gyroDev E → List Event → DetectResult E :=
  detectCase E b.USE_IMU_BMI088 GYRO_BMI088 (caseICM20689 b E)

/-- Label `case GYRO_BMI160:`. -/
def caseBMI160 (b : BuildConfig) (E : Externals) : gyroDev E → List Event → DetectResult E :=
  detectCase E b.USE_IMU_BMI160 GYRO_BMI160 (caseBMI088 b E)

/-- Label `case GYRO_MPU9250:`. -/
def caseMPU9250 (b : BuildConfig) (E : Externals) : gyroDev E → List Event → DetectResult E :=
  detectCase E b.USE_IMU_MPU9250 GYRO_MPU9250 (caseBMI160 b E)

/-- Label `case GYRO_MPU6500:`. -/
def caseMPU6500 (b : BuildConfig) (E : Externals) : gyroDev E → List Event → DetectResult E :=
  detectCase E b.USE_IMU_MPU6500 GYRO_MPU6500 (caseMPU9250 b E)

/-- Label `case GYRO_MPU6000:`. -/
def caseMPU6000 (b : BuildConfig) (E : Externals) : gyroDev E → List Event → DetectResult E :=
  detectCase E b.USE_IMU_MPU6000 GYRO_MPU6000 (caseMPU6500 b E)

/-- Function `gyroDetect`.  A label whose driver is not compiled in does not
exist, so the switch goes to `default` for it. -/
def gyroDetect (b : BuildConfig) (E : Externals) (dev : gyroDev E) (tr : List Event)
    (gyroHardware : gyroSensor_e) : DetectResult E :=
  let dev : gyroDev E := { dev with gyroAlign := E.ALIGN_DEFAULT }
  match gyroHardware with
  | GYRO_AUTODETECT => caseMPU6000 b E dev tr
  | GYRO_MPU6000 => if b.USE_IMU_MPU6000 then caseMPU6000 b E dev tr else caseNONE E dev tr
  | GYRO_MPU6500 => if b.USE_IMU_MPU6500 then caseMPU6500 b E dev tr else caseNONE E dev tr
  | GYRO_MPU9250 => if b.USE_IMU_MPU9250 then caseMPU9250 b E dev tr else caseNONE E dev tr
  | GYRO_BMI160 => if b.USE_IMU_BMI160 then caseBMI160 b E dev tr else caseNONE E dev tr
  | GYRO_BMI088 => if b.USE_IMU_BMI088 then caseBMI088 b E dev tr else caseNONE E dev tr
  | GYRO_ICM20689 => if b.USE_IMU_ICM20689 then caseICM20689 b E dev tr else caseNONE E dev tr
  | GYRO_ICM42605 => if b.USE_IMU_ICM42605 then caseICM42605 b E dev tr else caseNONE E dev tr
  | GYRO_BMI270 => if b.USE_IMU_BMI270 then caseBMI270 b E dev tr else caseNONE E dev tr
  | GYRO_LSM6DXX => if b.USE_IMU_LSM6DXX then caseLSM6DXX b E dev tr else caseNONE E dev tr
  | GYRO_FAKE => if b.USE_IMU_FAKE then caseFAKE b E dev tr else caseNONE E dev tr
  | GYRO_NONE => caseNONE E dev tr

/-! ## Initialisation -/

/-- Function `initGyroFilter`: returns the new `*applyFn` and the new `state[]`. -/
def initGyroFilter (E : Externals) (state : Vec3 E.filter_t) (type cutoff looptime : Nat) :
    filterApplyFnPtr × Vec3 E.filter_t :=
  if cutoff > 0 then
    if type = E.FILTER_PT1 then
      (filterApplyFnPtr.pt1FilterApply,
        state.map (fun f => E.pt1FilterInit f cutoff (E.US2S looptime)))
    else if type = E.FILTER_BIQUAD then
      (filterApplyFnPtr.biquadFilterApply,
        state.map (fun f => E.biquadFilterInitLPF f cutoff looptime))
    else (filterApplyFnPtr.nullFilterApply, state)
  else (filterApplyFnPtr.nullFilterApply, state)

/-- Function `gyroInitFilters`. -/
def gyroInitFilters (b : BuildConfig) (E : Externals) (s : gyroState E) : gyroState E :=
  let r1 := initGyroFilter E s.gyroLpfState s.gyroConfig.gyro_anti_aliasing_lpf_type
    s.gyroConfig.gyro_anti_aliasing_lpf_hz (E.getGyroLooptime s.env)
  let s1 : gyroState E := { s with gyroLpfApplyFn := r1.1, gyroLpfState := r1.2 }
  let r2 := initGyroFilter E s1.gyroLpf2State s1.gyroConfig.gyro_main_lpf_type
    s1.gyroConfig.gyro_main_lpf_hz (E.getLooptime s1.env)
  let s2 : gyroState E := { s1 with gyroLpf2ApplyFn := r2.1, gyroLpf2State := r2.2 }
  if b.USE_GYRO_KALMAN && s2.gyroConfig.kalmanEnabled then
    { s2 with kalman := E.gyroKalmanInitialize s2.kalman s2.gyroConfig.kalman_q }
  else s2

/-- The zeroed `gyro` object left by `memset(&gyro, 0, sizeof(gyro))`. -/
def gyroZeroed (E : Externals) : gyro_t E.F :=
  { initialized := false, targetLooptime := 0,
    gyroADCf := ⟨E.fzero, E.fzero, E.fzero⟩, gyroRaw := ⟨E.fzero, E.fzero, E.fzero⟩ }

/-- Function `gyroInit`. -/
def gyroInit (b : BuildConfig) (E : Externals) (s : gyroState E) : Bool × gyroState E :=
  let s0 : gyroState E := { s with gyro := gyroZeroed E }
  let s1 : gyroState E := { s0 with gyroDev0 := { s0.gyroDev0 with
    imuSensorToUse := if b.USE_DUAL_GYRO then s0.gyroConfig.gyro_to_use else 0 } }
  let d := gyroDetect b E s1.gyroDev0 s1.trace GYRO_AUTODETECT
  let s2 : gyroState E := { s1 with gyroDev0 := d.2.1, trace := d.2.2 }
  if d.1 = GYRO_NONE then
    (true, { s2 with gyro := { s2.gyro with initialized := false },
                     detectedSensorsGyro := GYRO_NONE })
  else
    let s3 : gyroState E := { s2 with gyro := { s2.gyro with initialized := true },
                                      detectedSensorsGyro := d.1,
                                      trace := s2.trace ++ [Event.sensorsSet] }
    let dev1 : gyroDev E := { s3.gyroDev0 with
      lpf := s3.gyroConfig.gyro_lpf,
      requestedSampleIntervalUs := E.TASK_GYRO_LOOPTIME,
      sampleRateIntervalUs := E.TASK_GYRO_LOOPTIME }
    let dev2 := E.callInitFn dev1.initFn dev1
    let s4 : gyroState E := { s3 with gyroDev0 := dev2, trace := s3.trace ++ [Event.initFn] }
    let s5 : gyroState E := { s4 with
      gyro := { s4.gyro with targetLooptime := s4.gyroDev0.sampleRateIntervalUs } }
    let s6 := gyroInitFilters b E s5
    if b.USE_DYNAMIC_FILTERS then
      (true, { s6 with
        dynamicGyroNotchState :=
          E.dynamicGyroNotchFiltersInit s6.gyroConfig s6.env s6.dynamicGyroNotchState,
        secondaryDynamicGyroNotchState :=
          E.secondaryDynamicGyroNotchFiltersInit s6.gyroConfig s6.env
            s6.secondaryDynamicGyroNotchState,
        gyroAnalyseState :=
          E.gyroDataAnalyseStateInit s6.gyroAnalyseState s6.gyroConfig.dynamicGyroNotchMinHz
            (E.getLooptime s6.env) })
    else (true, s6)

/-! ## Calibration -/

/-- Function `gyroStartCalibration`. -/
def gyroStartCalibration (b : BuildConfig) (E : Externals) (s : gyroState E) : gyroState E :=
  if !s.gyro.initialized then s
  else if !b.USE_IMU_FAKE && !s.gyroConfig.init_gyro_cal_enabled then s
  else
    { s with
      gyroCalibration0 := E.zeroCalibrationStartV s.env s.gyroCalibration0
        E.CALIBRATING_GYRO_TIME_MS E.CALIBRATING_GYRO_MORON_THRESHOLD false,
      trace := s.trace ++ [Event.zeroCalibrationStartV] }

/-- Function `gyroIsCalibrationComplete`. -/
def gyroIsCalibrationComplete (b : BuildConfig) (E : Externals) (s : gyroState E) : Bool :=
  if !s.gyro.initialized then true
  else if !b.USE_IMU_FAKE && !s.gyroConfig.init_gyro_cal_enabled then true
  else E.zeroCalibrationIsCompleteV s.gyroCalibration0 &&
    E.zeroCalibrationIsSuccessfulV s.gyroCalibration0

/-- Function `performGyroCalibration`, on `dev = &gyroDev[0]` and
`gyroCalibration = &gyroCalibration[0]` as its only caller passes them. -/
def performGyroCalibration (b : BuildConfig) (E : Externals) (s : gyroState E) : gyroState E :=
  let v : Vec3 E.F := s.gyroDev0.gyroADCRaw.map E.ofInt
  let s1 : gyroState E := { s with
    gyroCalibration0 := E.zeroCalibrationAddValueV s.env s.gyroCalibration0 v,
    trace := s.trace ++ [Event.zeroCalibrationAddValueV] }
  if E.zeroCalibrationIsCompleteV s1.gyroCalibration0 then
    let v1 := E.zeroCalibrationGetZeroV s1.gyroCalibration0 v
    let s2 : gyroState E := { s1 with
      gyroDev0 := { s1.gyroDev0 with gyroZero := v1.map E.floatToInt16 } }
    let s3 : gyroState E :=
      if !b.USE_IMU_FAKE then
        { s2 with gyroConfig := E.setGyroCalibration s2.gyroConfig s2.gyroDev0.gyroZero }
      else s2
    { s3 with trace := s3.trace ++ [Event.schedulerResetTaskStatistics] }
  else
    { s1 with gyroDev0 := { s1.gyroDev0 with gyroZero := ⟨0, 0, 0⟩ } }

/-! ## Sample conditioning -/

/-- Function `gyroGetMeasuredRotationRate`. -/
def gyroGetMeasuredRotationRate (E : Externals) (s : gyroState E) : Vec3 E.F :=
  s.gyro.gyroADCf.map E.DEGREES_TO_RADIANS

/-- The block of `gyroUpdateAndCalibrate` under `#ifndef USE_IMU_FAKE`: with
calibration disabled in the configuration, mark the calibration done and take
the configured zero offset. -/
def applyGyroCalConfig (b : BuildConfig) (E : Externals) (s : gyroState E) : gyroState E :=
  if !b.USE_IMU_FAKE && !s.gyroConfig.init_gyro_cal_enabled then
    { s with
      gyroCalibration0 := { s.gyroCalibration0 with params_state := E.ZERO_CALIBRATION_DONE },
      gyroDev0 := { s.gyroDev0 with gyroZero := s.gyroConfig.gyro_zero_cal } }
  else s

/-- Function `gyroUpdateAndCalibrate`, on the arguments `&gyroDev[0]`,
`&gyroCalibration[0]`, `gyro.gyroADCf` of its only call. -/
def gyroUpdateAndCalibrate (b : BuildConfig) (E : Externals) (s : gyroState E) :
    Bool × gyroState E :=
  let r := E.callReadFn s.gyroDev0.readFn s.gyroDev0
  let s1 : gyroState E := { s with gyroDev0 := r.2 }
  if r.1 then
    let s2 := applyGyroCalConfig b E s1
    if E.zeroCalibrationIsCompleteV s2.gyroCalibration0 then
      let gyroADCtmp : Vec3 Int :=
        ⟨toInt32 (toInt32 s2.gyroDev0.gyroADCRaw.x - toInt32 s2.gyroDev0.gyroZero.x),
         toInt32 (toInt32 s2.gyroDev0.gyroADCRaw.y - toInt32 s2.gyroDev0.gyroZero.y),
         toInt32 (toInt32 s2.gyroDev0.gyroADCRaw.z - toInt32 s2.gyroDev0.gyroZero.z)⟩
      let gyroADCtmp1 := E.applySensorAlignment gyroADCtmp s2.gyroDev0.gyroAlign
      let gyroADCtmp2 := E.applyBoardAlignment gyroADCtmp1
      (true, { s2 with gyro := { s2.gyro with gyroADCf :=
        ⟨E.fmul (E.ofInt gyroADCtmp2.x) s2.gyroDev0.scale,
         E.fmul (E.ofInt gyroADCtmp2.y) s2.gyroDev0.scale,
         E.fmul (E.ofInt gyroADCtmp2.z) s2.gyroDev0.scale⟩ } })
    else
      let s3 := performGyroCalibration b E s2
      (false, { s3 with gyro := { s3.gyro with gyroADCf := ⟨E.fzero, E.fzero, E.fzero⟩ } })
  else
    (false, s1)

/-- Body of the loop of `gyroUpdate` for one axis. -/
def gyroUpdateAxis (E : Externals) (axis : Fin 3) (s : gyroState E) : gyroState E :=
  let gyroADCf := s.gyro.gyroADCf.get axis
  let s1 : gyroState E :=
    { s with gyro := { s.gyro with gyroRaw := s.gyro.gyroRaw.set axis gyroADCf } }
  let r := s1.gyroLpfApplyFn.call E (s1.gyroLpfState.get axis) gyroADCf
  { s1 with gyroLpfState := s1.gyroLpfState.set axis r.1,
            gyro := { s1.gyro with gyroADCf := s1.gyro.gyroADCf.set axis r.2 } }

/-- Function `gyroUpdate`. -/
def gyroUpdate (b : BuildConfig) (E : Externals) (s : gyroState E) : gyroState E :=
  if b.USE_SIMULATOR && E.ARMING_FLAG_SIMULATOR_MODE_HITL s.env then s
  else if !s.gyro.initialized then s
  else
    let r := gyroUpdateAndCalibrate b E s
    if !r.1 then r.2
    else forAxes (gyroUpdateAxis E) r.2

/-! ## Filter cascade -/

/-- Body of the loop of `gyroFilter` for one axis. -/
def gyroFilterAxis (b : BuildConfig) (E : Externals) (axis : Fin 3) (s : gyroState E) :
    gyroState E :=
  let x0 := s.gyro.gyroADCf.get axis
  let r1 : gyroState E × E.F :=
    if b.USE_RPM_FILTER then
      let r := E.rpmFilterGyroApply s.rpmFilter axis x0
      ({ s with rpmFilter := r.1 }, r.2)
    else (s, x0)
  let r2 : gyroState E × E.F :=
    let r := r1.1.gyroLpf2ApplyFn.call E (r1.1.gyroLpf2State.get axis) r1.2
    ({ r1.1 with gyroLpf2State := r1.1.gyroLpf2State.set axis r.1 }, r.2)
  let r3 : gyroState E × E.F :=
    if b.USE_DYNAMIC_FILTERS then
      let p : gyroState E × E.F :=
        if E.dynamicGyroNotchEnabled r2.1.dynamicGyroNotchState then
          let a := E.gyroDataAnalysePush r2.1.gyroAnalyseState axis r2.2
          let r := E.dynamicGyroNotchFiltersApply r2.1.dynamicGyroNotchState axis r2.2
          ({ r2.1 with gyroAnalyseState := a, dynamicGyroNotchState := r.1 }, r.2)
        else r2
      let r := E.secondaryDynamicGyroNotchFiltersApply p.1.secondaryDynamicGyroNotchState axis p.2
      ({ p.1 with secondaryDynamicGyroNotchState := r.1 }, r.2)
    else r2
  let r4 : gyroState E × E.F :=
    if b.USE_GYRO_KALMAN && r3.1.gyroConfig.kalmanEnabled then
      let r := E.gyroKalmanUpdate r3.1.kalman axis r3.2
      ({ r3.1 with kalman := r.1 }, r.2)
    else r3
  { r4.1 with gyro := { r4.1.gyro with gyroADCf := r4.1.gyro.gyroADCf.set axis r4.2 } }

/-- The retuning block that closes `gyroFilter`. -/
def gyroFilterRetune (b : BuildConfig) (E : Externals) (s : gyroState E) : gyroState E :=
  if b.USE_DYNAMIC_FILTERS && E.dynamicGyroNotchEnabled s.dynamicGyroNotchState then
    let s1 : gyroState E := { s with gyroAnalyseState := E.gyroDataAnalyse s.gyroAnalyseState }
    if E.filterUpdateExecute s1.gyroAnalyseState then
      let axis := E.filterUpdateAxis s1.gyroAnalyseState
      let freq := E.centerFrequency s1.gyroAnalyseState axis
      { s1 with
        dynamicGyroNotchState :=
          E.dynamicGyroNotchFiltersUpdate s1.dynamicGyroNotchState axis freq,
        secondaryDynamicGyroNotchState :=
          E.secondaryDynamicGyroNotchFiltersUpdate s1.secondaryDynamicGyroNotchState axis freq }
    else s1
  else s

/-- Function `gyroFilter`. -/
def gyroFilter (b : BuildConfig) (E : Externals) (s : gyroState E) : gyroState E :=
  if !s.gyro.initialized then s
  else gyroFilterRetune b E (forAxes (gyroFilterAxis b E) s)

/-! ## Temperature, accessors, live cutoff -/

/-- Function `gyroReadTemperature`. -/
def gyroReadTemperature (E : Externals) (s : gyroState E) : Bool × gyroState E :=
  if !s.gyro.initialized then (false, s)
  else
    match s.gyroDev0.temperatureFn with
    | some fn =>
      let r := E.callTemperatureFn fn s.gyroDev0 s.gyroTemperature0
      (r.1, { s with gyroDev0 := r.2.1, gyroTemperature0 := r.2.2 })
    | none => (false, s)

/-- Function `gyroGetTemperature`. -/
def gyroGetTemperature (E : Externals) (s : gyroState E) : Int :=
  if !s.gyro.initialized then 0 else s.gyroTemperature0

/-- Function `gyroRateDps`; the `long` that `lrintf` gives is returned as `int16_t`. -/
def gyroRateDps (E : Externals) (s : gyroState E) (axis : Fin 3) : Int :=
  if !s.gyro.initialized then 0 else toInt16 (E.lrintf (s.gyro.gyroADCf.get axis))

/-- Body of the first loop of `gyroUpdateDynamicLpf` for one axis. -/
def updateCutoffPt1Axis (E : Externals) (cutoffFreq : E.F) (axis : Fin 3) (s : gyroState E) :
    gyroState E :=
  let f := E.pt1FilterUpdateCutoff (s.gyroLpf2State.get axis) cutoffFreq
  { s with gyroLpf2State := s.gyroLpf2State.set axis f }

/-- Body of the second loop of `gyroUpdateDynamicLpf` for one axis. -/
def updateCutoffBiquadAxis (E : Externals) (cutoffFreq : E.F) (axis : Fin 3) (s : gyroState E) :
    gyroState E :=
  let f := E.biquadFilterUpdate (s.gyroLpf2State.get axis) cutoffFreq (E.getLooptime s.env)
    E.BIQUAD_Q E.FILTER_LPF
  { s with gyroLpf2State := s.gyroLpf2State.set axis f }

/-- Function `gyroUpdateDynamicLpf`. -/
def gyroUpdateDynamicLpf (E : Externals) (s : gyroState E) (cutoffFreq : E.F) : gyroState E :=
  if s.gyroConfig.gyro_main_lpf_type = E.FILTER_PT1 then
    forAxes (updateCutoffPt1Axis E cutoffFreq) s
  else if s.gyroConfig.gyro_main_lpf_type = E.FILTER_BIQUAD then
    forAxes (updateCutoffBiquadAxis E cutoffFreq) s
  else s

/-- Function `averageAbsGyroRates` (ROLL = 0, PITCH = 1, YAW = 2). -/
def averageAbsGyroRates (E : Externals) (s : gyroState E) : E.F :=
  E.fdiv (E.fadd (E.fadd (E.fabsf s.gyro.gyroADCf.x) (E.fabsf s.gyro.gyroADCf.y))
    (E.fabsf s.gyro.gyroADCf.z)) E.fthree

/-! ## Sequences of operations -/

/-- The state-changing entry points of the module other than `gyroInit`. -/
inductive Op (F : Type) where
  | gyroUpdate
  | gyroFilter
  | gyroStartCalibration
  | gyroReadTemperature
  | gyroUpdateDynamicLpf (cutoffFreq : F)

/-- State after one entry point. -/
def Op.run (b : BuildConfig) (E : Externals) (op : Op E.F) (s : gyroState E) : gyroState E :=
  match op with
  | .gyroUpdate => Gyro.gyroUpdate b E s
  | .gyroFilter => Gyro.gyroFilter b E s
  | .gyroStartCalibration => Gyro.gyroStartCalibration b E s
  | .gyroReadTemperature => (Gyro.gyroReadTemperature E s).2
  | .gyroUpdateDynamicLpf cutoffFreq => Gyro.gyroUpdateDynamicLpf E s cutoffFreq

/-- State after a sequence of entry points, first to last. -/
def runOps (b : BuildConfig) (E : Externals) (ops : List (Op E.F)) (s : gyroState E) :
    gyroState E :=
  ops.foldl (fun t op => op.run b E t) s

/-! ## The device selector as an ordered list -/

/-- The priority order of the detection chain. -/
def detectOrder : List gyroSensor_e :=
  [GYRO_MPU6000, GYRO_MPU6500, GYRO_MPU9250, GYRO_BMI160, GYRO_BMI088, GYRO_ICM20689,
   GYRO_ICM42605, GYRO_BMI270, GYRO_LSM6DXX, GYRO_FAKE]

/-- Whether the driver of a sensor is compiled in. -/
def compiledIn (b : BuildConfig) : gyroSensor_e → Bool
  | GYRO_NONE => false
  | GYRO_AUTODETECT => false
  | GYRO_MPU6000 => b.USE_IMU_MPU6000
  | GYRO_MPU6500 => b.USE_IMU_MPU6500
  | GYRO_MPU9250 => b.USE_IMU_MPU9250
  | GYRO_BMI160 => b.USE_IMU_BMI160
  | GYRO_BMI088 => b.USE_IMU_BMI088
  | GYRO_ICM20689 => b.USE_IMU_ICM20689
  | GYRO_ICM42605 => b.USE_IMU_ICM42605
  | GYRO_BMI270 => b.USE_IMU_BMI270
  | GYRO_LSM6DXX => b.USE_IMU_LSM6DXX
  | GYRO_FAKE => b.USE_IMU_FAKE

/-- The candidates of a build, in priority order. -/
def candidates (b : BuildConfig) : List gyroSensor_e :=
  detectOrder.filter (compiledIn b)

/-- The device selector as the specification words it: an explicit ordered
list iterated until the first success. -/
def firstSuccess (E : Externals) : List gyroSensor_e → gyroDev E → List Event → DetectResult E
  | [], dev, tr => (GYRO_NONE, dev, tr)
  | hw :: rest, dev, tr =>
    if (E.detectFn hw dev).1 then (hw, (E.detectFn hw dev).2, tr ++ [Event.detect hw true])
    else firstSuccess E rest (E.detectFn hw dev).2 (tr ++ [Event.detect hw false])

/-! ## The sample conditioner as the specification words it -/

/-- The conditioned sample of the specification: the exact per-axis integer
difference of raw count and zero offset, sensor alignment, then board
alignment, then the product with the scale factor. -/
def conditionedSample (E : Externals) (raw zero : Vec3 Int) (align : Nat) (scale : E.F) :
    Vec3 E.F :=
  (E.applyBoardAlignment
    (E.applySensorAlignment ⟨raw.x - zero.x, raw.y - zero.y, raw.z - zero.z⟩ align)).map
    (fun t => E.fmul (E.ofInt t) scale)

/-- All three components are `int16_t` values. -/
def Vec3.isInt16 (v : Vec3 Int) : Prop :=
  Gyro.isInt16 v.x ∧ Gyro.isInt16 v.y ∧ Gyro.isInt16 v.z

instance (v : Vec3 Int) : Decidable v.isInt16 := by
  unfold Vec3.isInt16
  exact inferInstance

/-- The neutral sample. -/
def neutralSample (E : Externals) : Vec3 E.F := ⟨E.fzero, E.fzero, E.fzero⟩

/-- The device record as the driver's read function leaves it. -/
def deviceAfterRead (E : Externals) (s : gyroState E) : gyroDev E :=
  (E.callReadFn s.gyroDev0.readFn s.gyroDev0).2

/-- Whether the driver's read function reports a sample. -/
def readSucceeds (E : Externals) (s : gyroState E) : Bool :=
  (E.callReadFn s.gyroDev0.readFn s.gyroDev0).1

/-- Whether `gyroUpdate` returns at once because of hardware-in-the-loop
simulation. -/
def simulatorActive (b : BuildConfig) (E : Externals) (s : gyroState E) : Bool :=
  b.USE_SIMULATOR && E.ARMING_FLAG_SIMULATOR_MODE_HITL s.env

/-- The state that `gyroUpdateAndCalibrate` tests for completion after a
successful read: the device as the driver left it, and the configuration
block applied. -/
def atGate (b : BuildConfig) (E : Externals) (s : gyroState E) : gyroState E :=
  applyGyroCalConfig b E { s with gyroDev0 := deviceAfterRead E s }

/-- The anti-aliasing stage of `gyroUpdate` run over a sample vector: filter
states and output. -/
def antiAliasing (E : Externals) (fn : filterApplyFnPtr) (st : Vec3 E.filter_t) (v : Vec3 E.F) :
    Vec3 E.filter_t × Vec3 E.F :=
  (⟨(fn.call E st.x v.x).1, (fn.call E st.y v.y).1, (fn.call E st.z v.z).1⟩,
   ⟨(fn.call E st.x v.x).2, (fn.call E st.y v.y).2, (fn.call E st.z v.z).2⟩)

/-- The calibration accumulator after the raw vector of the device record has
been added to it. -/
def calibrationAfterSample (E : Externals) (s : gyroState E) :
    zeroCalibrationVector_t E.calBody_t :=
  E.zeroCalibrationAddValueV s.env s.gyroCalibration0 (s.gyroDev0.gyroADCRaw.map E.ofInt)

/-! ## The filter cascade as the specification words it

Each stage owns its state and is run over the whole sample vector, X then Y
then Z, before the next stage sees the vector. -/

/-- One stage run over the three axes in turn. -/
def runStage {σ α : Type} (stage : σ → Fin 3 → α → σ × α) (st : σ) (v : Vec3 α) :
    σ × Vec3 α :=
  ((stage (stage (stage st 0 v.x).1 1 v.y).1 2 v.z).1,
   ⟨(stage st 0 v.x).2, (stage (stage st 0 v.x).1 1 v.y).2,
    (stage (stage (stage st 0 v.x).1 1 v.y).1 2 v.z).2⟩)

/-- Stage (a): the RPM notch, present when compiled in. -/
def rpmNotchStage (b : BuildConfig) (E : Externals) (st : E.rpm_t) (axis : Fin 3) (x : E.F) :
    E.rpm_t × E.F :=
  if b.USE_RPM_FILTER then E.rpmFilterGyroApply st axis x else (st, x)

/-- Stage (b): the main low-pass, through the function the module holds. -/
def lowPassStage (E : Externals) (fn : filterApplyFnPtr) (st : Vec3 E.filter_t) (axis : Fin 3)
    (x : E.F) : Vec3 E.filter_t × E.F :=
  (st.set axis (fn.call E (st.get axis) x).1, (fn.call E (st.get axis) x).2)

/-- Stage (c): the primary dynamic notch bank, fed to the analyser as well,
when compiled in and enabled. -/
def primaryNotchStage (b : BuildConfig) (E : Externals)
    (st : E.gyroAnalyseState_t × E.dynamicGyroNotchState_t) (axis : Fin 3) (x : E.F) :
    (E.gyroAnalyseState_t × E.dynamicGyroNotchState_t) × E.F :=
  if b.USE_DYNAMIC_FILTERS && E.dynamicGyroNotchEnabled st.2 then
    ((E.gyroDataAnalysePush st.1 axis x, (E.dynamicGyroNotchFiltersApply st.2 axis x).1),
      (E.dynamicGyroNotchFiltersApply st.2 axis x).2)
  else (st, x)

/-- Stage (d): the secondary dynamic notch bank, when compiled in. -/
def secondaryNotchStage (b : BuildConfig) (E : Externals)
    (st : E.secondaryDynamicGyroNotchState_t) (axis : Fin 3) (x : E.F) :
    E.secondaryDynamicGyroNotchState_t × E.F :=
  if b.USE_DYNAMIC_FILTERS then E.secondaryDynamicGyroNotchFiltersApply st axis x else (st, x)

/-- Stage (e): the Kalman smoother, when compiled in and enabled. -/
def smootherStage (b : BuildConfig) (E : Externals) (cfg : gyroConfig_t) (st : E.kalman_t)
    (axis : Fin 3) (x : E.F) : E.kalman_t × E.F :=
  if b.USE_GYRO_KALMAN && cfg.kalmanEnabled then E.gyroKalmanUpdate st axis x else (st, x)

/-- The published vector after the cascade: smoother of secondary notch of
primary notch of low-pass of RPM notch. -/
def postFilterVector (b : BuildConfig) (E : Externals) (s : gyroState E) : Vec3 E.F :=
  (runStage (smootherStage b E s.gyroConfig) s.kalman
    (runStage (secondaryNotchStage b E) s.secondaryDynamicGyroNotchState
      (runStage (primaryNotchStage b E) (s.gyroAnalyseState, s.dynamicGyroNotchState)
        (runStage (lowPassStage E s.gyroLpf2ApplyFn) s.gyroLpf2State
          (runStage (rpmNotchStage b E) s.rpmFilter s.gyro.gyroADCf).2).2).2).2).2

/-- The state after the cascade, stage by stage. -/
def postFilter (b : BuildConfig) (E : Externals) (s : gyroState E) : gyroState E :=
  let a := runStage (rpmNotchStage b E) s.rpmFilter s.gyro.gyroADCf
  let l := runStage (lowPassStage E s.gyroLpf2ApplyFn) s.gyroLpf2State a.2
  let p := runStage (primaryNotchStage b E) (s.gyroAnalyseState, s.dynamicGyroNotchState) l.2
  let q := runStage (secondaryNotchStage b E) s.secondaryDynamicGyroNotchState p.2
  let k := runStage (smootherStage b E s.gyroConfig) s.kalman q.2
  { s with
    rpmFilter := a.1,
    gyroLpf2State := l.1,
    gyroAnalyseState := p.1.1,
    dynamicGyroNotchState := p.1.2,
    secondaryDynamicGyroNotchState := q.1,
    kalman := k.1,
    gyro := { s.gyro with gyroADCf := k.2 } }

/-- Stage (a) on one axis of the published vector of a state. -/
def axisRpm (b : BuildConfig) (E : Externals) (s : gyroState E) (axis : Fin 3) : E.rpm_t × E.F :=
  rpmNotchStage b E s.rpmFilter axis (s.gyro.gyroADCf.get axis)

/-- Stage (b) on the output of stage (a). -/
def axisLowPass (b : BuildConfig) (E : Externals) (s : gyroState E) (axis : Fin 3) :
    Vec3 E.filter_t × E.F :=
  lowPassStage E s.gyroLpf2ApplyFn s.gyroLpf2State axis (axisRpm b E s axis).2

/-- Stage (c) on the output of stage (b). -/
def axisPrimary (b : BuildConfig) (E : Externals) (s : gyroState E) (axis : Fin 3) :
    (E.gyroAnalyseState_t × E.dynamicGyroNotchState_t) × E.F :=
  primaryNotchStage b E (s.gyroAnalyseState, s.dynamicGyroNotchState) axis
    (axisLowPass b E s axis).2

/-- Stage (d) on the output of stage (c). -/
def axisSecondary (b : BuildConfig) (E : Externals) (s : gyroState E) (axis : Fin 3) :
    E.secondaryDynamicGyroNotchState_t × E.F :=
  secondaryNotchStage b E s.secondaryDynamicGyroNotchState axis (axisPrimary b E s axis).2

/-- Stage (e) on the output of stage (d). -/
def axisSmoother (b : BuildConfig) (E : Externals) (s : gyroState E) (axis : Fin 3) :
    E.kalman_t × E.F :=
  smootherStage b E s.gyroConfig s.kalman axis (axisSecondary b E s axis).2

/-- The five stages on one axis of a state, each stage on its own state. -/
def cascadeAxis (b : BuildConfig) (E : Externals) (axis : Fin 3) (s : gyroState E) :
    gyroState E :=
  { s with
    rpmFilter := (axisRpm b E s axis).1,
    gyroLpf2State := (axisLowPass b E s axis).1,
    gyroAnalyseState := (axisPrimary b E s axis).1.1,
    dynamicGyroNotchState := (axisPrimary b E s axis).1.2,
    secondaryDynamicGyroNotchState := (axisSecondary b E s axis).1,
    kalman := (axisSmoother b E s axis).1,
    gyro := { s.gyro with gyroADCf := s.gyro.gyroADCf.set axis (axisSmoother b E s axis).2 } }

/-! ## A concrete instance of the surroundings

Used to exhibit states on which the theorems below apply, and states on which
a statement fails.  Floats are rationals here. -/

/-- Modelled from the spec: the state of a Filter Primitive of the single-pole
kind (`common/filter.c` is not under src/): the held output, the time constant
`RC`, the sample interval `dT` and the coefficient `alpha = dT / (RC + dT)`. -/
structure demoFilter where
  state : ℚ
  RC : ℚ
  dT : ℚ
  alpha : ℚ
deriving DecidableEq

/-- Modelled from the spec: `apply(sample) -> sample` of the single-pole
low-pass, which moves the held output towards the input by the coefficient. -/
def demoFilterApply (f : demoFilter) (input : ℚ) : demoFilter × ℚ :=
  ({ f with state := f.state + f.alpha * (input - f.state) },
    f.state + f.alpha * (input - f.state))

/-- Modelled from the spec: the time constant of a cutoff frequency,
`1 / (2 pi f)` with `2 pi` taken as 710/113. -/
def demoComputeRC (cutoff : ℚ) : ℚ := 113 / (710 * cutoff)

/-- Modelled from the spec: `init(cutoff, sampleIntervalSeconds)` of the
Filter Primitive. -/
def demoFilterInit (cutoff dT : ℚ) : demoFilter :=
  { state := 0, RC := demoComputeRC cutoff, dT := dT, alpha := dT / (demoComputeRC cutoff + dT) }

/-- Modelled from the spec: `updateCutoff(cutoff)` of the Filter Primitive,
which recomputes the coefficients and keeps the held output. -/
def demoFilterUpdateCutoff (f : demoFilter) (cutoff : ℚ) : demoFilter :=
  { f with RC := demoComputeRC cutoff, alpha := f.dT / (demoComputeRC cutoff + f.dT) }

/-- Modelled from the spec: the remainder of the Calibration State Machine's
accumulator (`common/calibration.c` is not under src/): running sum, lowest
and highest sample per axis (their difference is the dispersion measure),
sample count, and the parameters of `start`. -/
structure demoCalBody where
  sum : Vec3 ℚ
  lo : Vec3 ℚ
  hi : Vec3 ℚ
  count : Nat
  duration : Nat
  threshold : ℚ
  autoRestart : Bool
  successful : Bool
deriving DecidableEq

/-- Modelled from the spec: `start(durationSamples, dispersionThreshold,
autoRestart)`.  States: 0 uncalibrated, 1 accumulating, 2 done. -/
def demoStart (window : Nat) (threshold : ℚ) (autoRestart : Bool) :
    zeroCalibrationVector_t demoCalBody :=
  { params_state := 1,
    body := { sum := ⟨0, 0, 0⟩, lo := ⟨0, 0, 0⟩, hi := ⟨0, 0, 0⟩, count := 0,
              duration := window, threshold := threshold, autoRestart := autoRestart,
              successful := false } }

/-- Modelled from the spec: `addSample(rawVector)`.  Only an accumulating
calibration takes the sample.  When the count reaches the duration the
calibration is done, with the mean as zero offset and success if the
dispersion of every axis is within the threshold; a calibration that restarts
by itself starts over instead of ending without success. -/
def demoAddValue (c : zeroCalibrationVector_t demoCalBody) (v : Vec3 ℚ) :
    zeroCalibrationVector_t demoCalBody :=
  if c.params_state = 1 then
    let sum : Vec3 ℚ := ⟨c.body.sum.x + v.x, c.body.sum.y + v.y, c.body.sum.z + v.z⟩
    let lo : Vec3 ℚ :=
      if c.body.count = 0 then v
      else ⟨min c.body.lo.x v.x, min c.body.lo.y v.y, min c.body.lo.z v.z⟩
    let hi : Vec3 ℚ :=
      if c.body.count = 0 then v
      else ⟨max c.body.hi.x v.x, max c.body.hi.y v.y, max c.body.hi.z v.z⟩
    let n : Nat := c.body.count + 1
    if n ≥ c.body.duration then
      if hi.x - lo.x ≤ c.body.threshold ∧ hi.y - lo.y ≤ c.body.threshold ∧
          hi.z - lo.z ≤ c.body.threshold then
        { params_state := 2,
          body := { c.body with sum := ⟨sum.x / n, sum.y / n, sum.z / n⟩, lo := lo, hi := hi,
                                count := n, successful := true } }
      else if c.body.autoRestart then
        demoStart c.body.duration c.body.threshold c.body.autoRestart
      else
        { params_state := 2,
          body := { c.body with sum := ⟨sum.x / n, sum.y / n, sum.z / n⟩, lo := lo, hi := hi,
                                count := n, successful := false } }
    else
      { c with body := { c.body with sum := sum, lo := lo, hi := hi, count := n } }
  else c

/-- Modelled from the spec: `currentZero()`, the mean of a calibration that is
done with success, and zero otherwise. -/
def demoGetZero (c : zeroCalibrationVector_t demoCalBody) : Vec3 ℚ :=
  if c.params_state = 2 ∧ c.body.successful = true then c.body.sum else ⟨0, 0, 0⟩

/-- Modelled from the spec: sensor package alignment as an axis permutation
(`sensors/boardalignment.c` is not under src/): 2 turns the axes a quarter
turn about Z, every other value keeps them. -/
def demoSensorAlignment (v : Vec3 Int) (rotation : Nat) : Vec3 Int :=
  if rotation = 2 then ⟨v.y, -v.x, v.z⟩ else v

/-- A concrete instance of `Externals`: which sensors are present and what the
driver's read function delivers are its parameters.  The two-pole filter kind
is not modelled apart: both kinds are the single-pole low-pass.  The notch
banks, the RPM notch and the smoother hand their input on. -/
@[reducible]
def demoExternals (present : gyroSensor_e → Bool) (sample : Option (Vec3 Int)) : Externals where
  F := ℚ
  fzero := 0
  fthree := 3
  ofInt := fun n => (n : ℚ)
  floatToInt16 := fun q => toInt16 (Int.tdiv q.num q.den)
  fmul := fun x y => x * y
  fadd := fun x y => x + y
  fdiv := fun x y => x / y
  fabsf := fun x => |x|
  lrintf := fun q => Int.floor (q + 1 / 2)
  DEGREES_TO_RADIANS := fun x => x * (355 / 113 / 180)
  US2S := fun us => (us : ℚ) / 1000000
  BIQUAD_Q := 7071 / 10000
  ALIGN_DEFAULT := 0
  FILTER_PT1 := 0
  FILTER_BIQUAD := 1
  FILTER_LPF := 0
  ZERO_CALIBRATION_DONE := 2
  TASK_GYRO_LOOPTIME := 250
  CALIBRATING_GYRO_TIME_MS := 2000
  CALIBRATING_GYRO_MORON_THRESHOLD := 32
  busDevice_t := Unit
  filter_t := demoFilter
  calBody_t := demoCalBody
  gyroAnalyseState_t := Unit
  dynamicGyroNotchState_t := Bool
  secondaryDynamicGyroNotchState_t := Unit
  rpm_t := Unit
  kalman_t := Unit
  env_t := Unit
  detectFn := fun hw dev =>
    (present hw, if present hw then { dev with initFn := 1, readFn := 1, scale := 1 } else dev)
  callInitFn := fun _ dev => dev
  callReadFn := fun _ dev =>
    match sample with
    | some v => (true, { dev with gyroADCRaw := v })
    | none => (false, dev)
  callTemperatureFn := fun _ dev _ => (true, dev, 250)
  applySensorAlignment := demoSensorAlignment
  applyBoardAlignment := fun v => v
  nullFilterApply := fun f x => (f, x)
  pt1FilterApply := demoFilterApply
  biquadFilterApply := demoFilterApply
  pt1FilterInit := fun _ cutoff dT => demoFilterInit cutoff dT
  biquadFilterInitLPF := fun _ cutoff looptime => demoFilterInit cutoff ((looptime : ℚ) / 1000000)
  pt1FilterUpdateCutoff := demoFilterUpdateCutoff
  biquadFilterUpdate := fun f cutoff _ _ _ => demoFilterUpdateCutoff f cutoff
  zeroCalibrationStartV := fun _ _ window threshold autoRestart =>
    demoStart window threshold autoRestart
  zeroCalibrationIsCompleteV := fun c => c.params_state = 2
  zeroCalibrationIsSuccessfulV := fun c => c.params_state = 2 && c.body.successful
  zeroCalibrationAddValueV := fun _ c v => demoAddValue c v
  zeroCalibrationGetZeroV := fun c _ => demoGetZero c
  setGyroCalibration := fun cfg zero => { cfg with gyro_zero_cal := zero }
  getLooptime := fun _ => 500
  getGyroLooptime := fun _ => 250
  ARMING_FLAG_SIMULATOR_MODE_HITL := fun _ => false
  rpmFilterGyroApply := fun st _ x => (st, x)
  gyroKalmanInitialize := fun st _ => st
  gyroKalmanUpdate := fun st _ x => (st, x)
  dynamicGyroNotchFiltersInit := fun _ _ st => st
  secondaryDynamicGyroNotchFiltersInit := fun _ _ st => st
  gyroDataAnalyseStateInit := fun st _ _ => st
  dynamicGyroNotchEnabled := fun st => st
  gyroDataAnalysePush := fun st _ _ => st
  dynamicGyroNotchFiltersApply := fun st _ x => (st, x)
  secondaryDynamicGyroNotchFiltersApply := fun st _ x => (st, x)
  gyroDataAnalyse := fun st => st
  filterUpdateExecute := fun _ => false
  filterUpdateAxis := fun _ => 0
  centerFrequency := fun _ _ => 0
  dynamicGyroNotchFiltersUpdate := fun st _ _ => st
  secondaryDynamicGyroNotchFiltersUpdate := fun st _ _ => st

/-- A flight build: every hardware driver, no fake driver, every filter
feature, no simulator. -/
def demoBuild : BuildConfig where
  USE_IMU_MPU6000 := true
  USE_IMU_MPU6500 := true
  USE_IMU_MPU9250 := true
  USE_IMU_BMI160 := true
  USE_IMU_BMI088 := true
  USE_IMU_ICM20689 := true
  USE_IMU_ICM42605 := true
  USE_IMU_BMI270 := true
  USE_IMU_LSM6DXX := true
  USE_IMU_FAKE := false
  USE_DUAL_GYRO := false
  USE_DYNAMIC_FILTERS := true
  USE_GYRO_KALMAN := true
  USE_RPM_FILTER := true
  USE_SIMULATOR := false

/-- A configuration with every filter stage off and calibration enabled. -/
def demoConfig : gyroConfig_t where
  gyro_lpf := 0
  gyro_anti_aliasing_lpf_hz := 0
  gyro_anti_aliasing_lpf_type := 0
  gyro_to_use := 0
  gyro_main_lpf_hz := 0
  gyro_main_lpf_type := 0
  dynamicGyroNotchMinHz := 150
  kalman_q := 200
  kalmanEnabled := false
  init_gyro_cal_enabled := true
  gyro_zero_cal := ⟨0, 0, 0⟩

/-- A device record: scale 1, default alignment, zero offset (1,2,3). -/
def demoDevice : gyroDev_t ℚ Unit where
  busDev := ()
  initFn := 1
  readFn := 1
  temperatureFn := none
  scale := 1
  gyroADCRaw := ⟨0, 0, 0⟩
  gyroZero := ⟨1, 2, 3⟩
  imuSensorToUse := 0
  lpf := 0
  requestedSampleIntervalUs := 250
  sampleRateIntervalUs := 250
  gyroAlign := 0

/-- An accumulator that was never started. -/
def demoCalFresh : zeroCalibrationVector_t demoCalBody :=
  { params_state := 0,
    body := { sum := ⟨0, 0, 0⟩, lo := ⟨0, 0, 0⟩, hi := ⟨0, 0, 0⟩, count := 0, duration := 0,
              threshold := 0, autoRestart := false, successful := false } }

/-- A calibration of two samples done with success, mean (1,2,3). -/
def demoCalDone : zeroCalibrationVector_t demoCalBody :=
  { params_state := 2,
    body := { sum := ⟨1, 2, 3⟩, lo := ⟨1, 2, 3⟩, hi := ⟨1, 2, 3⟩, count := 2, duration := 2,
              threshold := 32, autoRestart := false, successful := true } }

/-- A calibration of two samples, one sample (9,22,35) taken. -/
def demoCalRunning : zeroCalibrationVector_t demoCalBody :=
  { params_state := 1,
    body := { sum := ⟨9, 22, 35⟩, lo := ⟨9, 22, 35⟩, hi := ⟨9, 22, 35⟩, count := 1,
              duration := 2, threshold := 32, autoRestart := false, successful := false } }

/-- A calibration of two samples, (0,0,0) and (100,0,0), done without success:
the dispersion 100 of the first axis exceeds the threshold 32.  It is what
`demoAddValue` leaves after the second sample. -/
def demoCalFailed : zeroCalibrationVector_t demoCalBody :=
  { params_state := 2,
    body := { sum := ⟨50, 0, 0⟩, lo := ⟨0, 0, 0⟩, hi := ⟨100, 0, 0⟩, count := 2, duration := 2,
              threshold := 32, autoRestart := false, successful := false } }

/-- A zeroed filter record. -/
def demoFilterZero : demoFilter := { state := 0, RC := 0, dT := 0, alpha := 0 }

/-- An initialized state of the concrete instance: every filter stage off,
the given calibration and configuration, the last published sample (7,8,9). -/
def demoState (present : gyroSensor_e → Bool) (sample : Option (Vec3 Int))
    (cal : zeroCalibrationVector_t demoCalBody) (cfg : gyroConfig_t) :
    gyroState (demoExternals present sample) where
  gyro := { initialized := true, targetLooptime := 250, gyroADCf := (⟨7, 8, 9⟩ : Vec3 ℚ),
            gyroRaw := (⟨7, 8, 9⟩ : Vec3 ℚ) }
  gyroDev0 := demoDevice
  gyroTemperature0 := 0
  gyroCalibration0 := cal
  gyroLpfApplyFn := filterApplyFnPtr.nullFilterApply
  gyroLpfState := ⟨demoFilterZero, demoFilterZero, demoFilterZero⟩
  gyroLpf2ApplyFn := filterApplyFnPtr.nullFilterApply
  gyroLpf2State := ⟨demoFilterZero, demoFilterZero, demoFilterZero⟩
  gyroAnalyseState := ()
  dynamicGyroNotchState := false
  secondaryDynamicGyroNotchState := ()
  gyroConfig := cfg
  detectedSensorsGyro := GYRO_MPU6000
  rpmFilter := ()
  kalman := ()
  env := ()
  trace := []

/-- The instance whose driver delivers the raw sample (11,22,33); no sensor
answers a probe. -/
@[reducible]
def demoReading : Externals := demoExternals (fun _ => false) (some ⟨11, 22, 33⟩)

/-- The instance whose driver reports no new data; no sensor answers a probe. -/
@[reducible]
def demoNoData : Externals := demoExternals (fun _ => false) none

/-- The instance in which only the BMI270 answers a probe. -/
@[reducible]
def demoBmi270 : Externals :=
  demoExternals (fun hw => decide (hw = GYRO_BMI270)) (some ⟨11, 22, 33⟩)

/-- Calibration done with success, calibration enabled, raw (11,22,33) about
to be read, zero offset (1,2,3). -/
def demoCalibrated : gyroState demoReading :=
  demoState (fun _ => false) (some ⟨11, 22, 33⟩) demoCalDone demoConfig

/-- Calibration accumulating, one sample short of its duration. -/
def demoCalibrating : gyroState demoReading :=
  demoState (fun _ => false) (some ⟨11, 22, 33⟩) demoCalRunning demoConfig

/-- Calibration ended without success, calibration enabled; the device zero
offset is (1,2,3). -/
def demoFailed : gyroState demoReading :=
  demoState (fun _ => false) (some ⟨11, 22, 33⟩) demoCalFailed demoConfig

/-- Calibration disabled in the configuration with constant (1,2,3); the
accumulator never started, the device zero offset not yet set. -/
def demoDisabled : gyroState demoReading :=
  { demoState (fun _ => false) (some ⟨11, 22, 33⟩) demoCalFresh
      { demoConfig with init_gyro_cal_enabled := false, gyro_zero_cal := ⟨1, 2, 3⟩ } with
    gyroDev0 := { demoDevice with gyroZero := ⟨0, 0, 0⟩ } }

/-- A single-pole low-pass with coefficient one half and held output 0. -/
def demoFilterHalf : demoFilter :=
  { state := 0, RC := 1 / 1000, dT := 1 / 1000, alpha := 1 / 2 }

/-- No new data, and a main low-pass of the single-pole kind with coefficient
one half and held output 0 on each axis; last published sample (7,8,9). -/
def demoHeld : gyroState demoNoData :=
  { demoState (fun _ => false) none demoCalDone demoConfig with
    gyroLpf2ApplyFn := filterApplyFnPtr.pt1FilterApply,
    gyroLpf2State := ⟨demoFilterHalf, demoFilterHalf, demoFilterHalf⟩ }

/-- The state `demoHeld` after one period without new data: the main low-pass
holds (7/2,4,9/2) and that vector is published. -/
def demoSettled : gyroState demoNoData :=
  { demoHeld with
    gyro := { demoHeld.gyro with gyroADCf := (⟨7 / 2, 4, 9 / 2⟩ : Vec3 ℚ) },
    gyroLpf2State := ⟨{ demoFilterHalf with state := 7 / 2 }, { demoFilterHalf with state := 4 },
      { demoFilterHalf with state := 9 / 2 }⟩ }

/-- The state `gyroInit` leaves when no sensor answers, started from a state
whose filter records are zeroed and whose `gyro_main_lpf_type` is the
single-pole kind. -/
def demoAbsent : gyroState demoNoData :=
  (gyroInit demoBuild demoNoData (demoState (fun _ => false) none demoCalFresh demoConfig)).2

end Gyro

namespace Gyro

open gyroSensor_e

/-! ## Device selector -/

theorem detectCase_firstSuccess (E : Externals) (c : Bool) (hw : gyroSensor_e)
    (l : List gyroSensor_e) :
    detectCase E c hw (firstSuccess E l) = firstSuccess E (if c then hw :: l else l) := by
  funext dev tr
  cases c <;> simp [detectCase, firstSuccess]

theorem detectCase_filter (b : BuildConfig) (E : Externals) (hw : gyroSensor_e)
    (l : List gyroSensor_e) :
    detectCase E (compiledIn b hw) hw (firstSuccess E (l.filter (compiledIn b))) =
      firstSuccess E ((hw :: l).filter (compiledIn b)) := by
  rw [detectCase_firstSuccess, List.filter_cons]

theorem caseMPU6000_eq (b : BuildConfig) (E : Externals) :
    caseMPU6000 b E = firstSuccess E (candidates b) := by
  have h0 : caseNONE E = firstSuccess E ([].filter (compiledIn b)) := by
    funext dev tr
    simp [caseNONE, firstSuccess]
  have h1 : caseFAKE b E = firstSuccess E ([GYRO_FAKE].filter (compiledIn b)) := by
    unfold caseFAKE
    rw [h0]
    exact detectCase_filter b E GYRO_FAKE []
  have h2 : caseLSM6DXX b E =
      firstSuccess E ([GYRO_LSM6DXX, GYRO_FAKE].filter (compiledIn b)) := by
    unfold caseLSM6DXX
    rw [h1]
    exact detectCase_filter b E GYRO_LSM6DXX _
  have h3 : caseBMI270 b E =
      firstSuccess E ([GYRO_BMI270, GYRO_LSM6DXX, GYRO_FAKE].filter (compiledIn b)) := by
    unfold caseBMI270
    rw [h2]
    exact detectCase_filter b E GYRO_BMI270 _
  have h4 : caseICM42605 b E =
      firstSuccess E
        ([GYRO_ICM42605, GYRO_BMI270, GYRO_LSM6DXX, GYRO_FAKE].filter (compiledIn b)) := by
    unfold caseICM42605
    rw [h3]
    exact detectCase_filter b E GYRO_ICM42605 _
  have h5 : caseICM20689 b E =
      firstSuccess E
        ([GYRO_ICM20689, GYRO_ICM42605, GYRO_BMI270, GYRO_LSM6DXX, GYRO_FAKE].filter (compiledIn b)) := by
    unfold caseICM20689
    rw [h4]
    exact detectCase_filter b E GYRO_ICM20689 _
  have h6 : caseBMI088 b E =
      firstSuccess E
        ([GYRO_BMI088, GYRO_ICM20689, GYRO_ICM42605, GYRO_BMI270, GYRO_LSM6DXX, GYRO_FAKE].filter (compiledIn b)) := by
    unfold caseBMI088
    rw [h5]
    exact detectCase_filter b E GYRO_BMI088 _
  have h7 : caseBMI160 b E =
      firstSuccess E
        ([GYRO_BMI160, GYRO_BMI088, GYRO_ICM20689, GYRO_ICM42605, GYRO_BMI270, GYRO_LSM6DXX,
          GYRO_FAKE].filter (compiledIn b)) := by
    unfold caseBMI160
    rw [h6]
    exact detectCase_filter b E GYRO_BMI160 _
  have h8 : caseMPU9250 b E =
      firstSuccess E
        ([GYRO_MPU9250, GYRO_BMI160, GYRO_BMI088, GYRO_ICM20689, GYRO_ICM42605, GYRO_BMI270,
          GYRO_LSM6DXX, GYRO_FAKE].filter (compiledIn b)) := by
    unfold caseMPU9250
    rw [h7]
    exact detectCase_filter b E GYRO_MPU9250 _
  have h9 : caseMPU6500 b E =
      firstSuccess E
        ([GYRO_MPU6500, GYRO_MPU9250, GYRO_BMI160, GYRO_BMI088, GYRO_ICM20689, GYRO_ICM42605,
          GYRO_BMI270, GYRO_LSM6DXX, GYRO_FAKE].filter (compiledIn b)) := by
    unfold caseMPU6500
    rw [h8]
    exact detectCase_filter b E GYRO_MPU6500 _
  unfold caseMPU6000
  rw [h9]
  exact detectCase_filter b E GYRO_MPU6000 _

/-- Trace of a run of the ordered list: either every candidate was probed and
failed, or the winner's successful probe closes the trace and the candidates
before it were probed, in order, and failed. -/
theorem firstSuccess_trace (E : Externals) (l : List gyroSensor_e) (hl : GYRO_NONE ∉ l) :
    ∀ (dev : gyroDev E) (tr : List Event),
      ((firstSuccess E l dev tr).1 = GYRO_NONE ∧
        (firstSuccess E l dev tr).2.2 = tr ++ l.map (fun k => Event.detect k false)) ∨
      ((firstSuccess E l dev tr).1 ≠ GYRO_NONE ∧
        ∃ failed rest, l = failed ++ (firstSuccess E l dev tr).1 :: rest ∧
          (firstSuccess E l dev tr).2.2 =
            tr ++ failed.map (fun k => Event.detect k false) ++
              [Event.detect (firstSuccess E l dev tr).1 true]) := by
  induction l with
  | nil =>
    intro dev tr
    left
    simp [firstSuccess]
  | cons hw rest ih =>
    intro dev tr
    have hne : hw ≠ GYRO_NONE := fun h => hl (by simp [h])
    have hrest : GYRO_NONE ∉ rest := fun h => hl (List.mem_cons_of_mem _ h)
    by_cases hd : (E.detectFn hw dev).1 = true
    · right
      simp only [firstSuccess, hd, if_true]
      exact ⟨hne, [], rest, by simp, by simp⟩
    · have hstep : firstSuccess E (hw :: rest) dev tr =
          firstSuccess E rest (E.detectFn hw dev).2 (tr ++ [Event.detect hw false]) := by
        simp [firstSuccess, hd]
      rw [hstep]
      rcases ih hrest (E.detectFn hw dev).2 (tr ++ [Event.detect hw false]) with h | h
      · left
        exact ⟨h.1, by rw [h.2]; simp⟩
      · right
        obtain ⟨h1, failed, rest2, h2, h3⟩ := h
        refine ⟨h1, hw :: failed, rest2, ?_, ?_⟩
        · rw [List.cons_append, ← h2]
        · rw [h3]
          simp

/-- The alignment that the detection chain leaves is the one it was given,
as long as no driver's detect function writes the field. -/
theorem firstSuccess_gyroAlign (E : Externals)
    (hkeep : ∀ k (d : gyroDev E), (E.detectFn k d).2.gyroAlign = d.gyroAlign)
    (l : List gyroSensor_e) :
    ∀ (dev : gyroDev E) (tr : List Event),
      (firstSuccess E l dev tr).2.1.gyroAlign = dev.gyroAlign := by
  induction l with
  | nil =>
    intro dev tr
    simp [firstSuccess]
  | cons hw rest ih =>
    intro dev tr
    by_cases hd : (E.detectFn hw dev).1 = true
    · simp [firstSuccess, hd, hkeep]
    · simp [firstSuccess, hd, ih, hkeep]

theorem none_not_mem_candidates (b : BuildConfig) : GYRO_NONE ∉ candidates b := by
  intro h
  have h2 : GYRO_NONE ∈ detectOrder := (List.mem_filter.mp h).1
  revert h2
  decide

theorem gyroDetect_autodetect_eq (b : BuildConfig) (E : Externals) (dev : gyroDev E)
    (tr : List Event) :
    gyroDetect b E dev tr GYRO_AUTODETECT =
      firstSuccess E (candidates b) { dev with gyroAlign := E.ALIGN_DEFAULT } tr := by
  simp only [gyroDetect]
  rw [caseMPU6000_eq]

/-- Claim C9.  `gyroDetect` called with `GYRO_AUTODETECT` is the ordered list of
compiled-in candidates (MPU6000, MPU6500, MPU9250, BMI160, BMI088, ICM20689,
ICM42605, BMI270, LSM6DXX, FAKE, in this order) iterated until the first
success, started on the device with its alignment reset to `ALIGN_DEFAULT`.
Whatever the drivers answer: either the result is `GYRO_NONE` and every
candidate was probed once, in order, and failed; or the result is a candidate
whose probe succeeded, that probe is the last one made, and the probes before
it are exactly the candidates that precede it, in order, all failed.  The
result is `GYRO_NONE` if and only if every candidate's probe failed.  The
alignment is still `ALIGN_DEFAULT` on return unless a probed driver wrote it,
and with all ten drivers compiled in the candidates are the ten of the fixed
order. -/
theorem gyroDetect_autodetect_first_success (b : BuildConfig) (E : Externals)
    (dev : gyroDev E) (tr : List Event) :
    gyroDetect b E dev tr GYRO_AUTODETECT =
        firstSuccess E (candidates b) { dev with gyroAlign := E.ALIGN_DEFAULT } tr ∧
    (((gyroDetect b E dev tr GYRO_AUTODETECT).1 = GYRO_NONE ∧
        (gyroDetect b E dev tr GYRO_AUTODETECT).2.2 =
          tr ++ (candidates b).map (fun k => Event.detect k false)) ∨
      ((gyroDetect b E dev tr GYRO_AUTODETECT).1 ≠ GYRO_NONE ∧
        ∃ failed rest,
          candidates b = failed ++ (gyroDetect b E dev tr GYRO_AUTODETECT).1 :: rest ∧
          (gyroDetect b E dev tr GYRO_AUTODETECT).2.2 =
            tr ++ failed.map (fun k => Event.detect k false) ++
              [Event.detect (gyroDetect b E dev tr GYRO_AUTODETECT).1 true])) ∧
    ((gyroDetect b E dev tr GYRO_AUTODETECT).1 = GYRO_NONE ↔
      (gyroDetect b E dev tr GYRO_AUTODETECT).2.2 =
        tr ++ (candidates b).map (fun k => Event.detect k false)) ∧
    ((∀ k (d : gyroDev E), (E.detectFn k d).2.gyroAlign = d.gyroAlign) →
      (gyroDetect b E dev tr GYRO_AUTODETECT).2.1.gyroAlign = E.ALIGN_DEFAULT) ∧
    ((∀ k ∈ detectOrder, compiledIn b k = true) → candidates b = detectOrder) := by
  have heq := gyroDetect_autodetect_eq b E dev tr
  have htr := firstSuccess_trace E (candidates b) (none_not_mem_candidates b)
    { dev with gyroAlign := E.ALIGN_DEFAULT } tr
  rw [← heq] at htr
  refine ⟨heq, htr, ?_, ?_, ?_⟩
  · constructor
    · intro h
      rcases htr with h1 | h1
      · exact h1.2
      · exact absurd h h1.1
    · intro h
      rcases htr with h1 | h1
      · exact h1.1
      · exfalso
        obtain ⟨_, failed, rest, _, h3⟩ := h1
        rw [h3, List.append_assoc] at h
        have h4 := List.append_cancel_left h
        have h5 : Event.detect (gyroDetect b E dev tr GYRO_AUTODETECT).1 true ∈
            (candidates b).map (fun k => Event.detect k false) := by
          rw [← h4]
          simp
        simp at h5
  · intro hkeep
    rw [heq, firstSuccess_gyroAlign E hkeep]
  · intro hall
    exact List.filter_eq_self.mpr hall

/-! ## Sample conditioner -/

theorem toInt32_of_isInt16 (x : Int) (h : isInt16 x) : toInt32 x = x := by
  unfold isInt16 at h
  unfold toInt32
  omega

theorem toInt32_sub_of_isInt16 (r z : Int) (hr : isInt16 r) (hz : isInt16 z) :
    toInt32 (toInt32 r - toInt32 z) = r - z := by
  rw [toInt32_of_isInt16 r hr, toInt32_of_isInt16 z hz]
  unfold isInt16 at hr hz
  unfold toInt32
  omega

theorem atGate_gyro (b : BuildConfig) (E : Externals) (s : gyroState E) :
    (atGate b E s).gyro = s.gyro := by
  unfold atGate applyGyroCalConfig
  split <;> rfl

theorem gyroUpdateAndCalibrate_of_complete (b : BuildConfig) (E : Externals) (s : gyroState E)
    (hread : readSucceeds E s = true)
    (hdone : E.zeroCalibrationIsCompleteV (atGate b E s).gyroCalibration0 = true)
    (hr : (atGate b E s).gyroDev0.gyroADCRaw.isInt16)
    (hz : (atGate b E s).gyroDev0.gyroZero.isInt16) :
    gyroUpdateAndCalibrate b E s =
      (true, { atGate b E s with gyro := { s.gyro with gyroADCf :=
          (conditionedSample E (atGate b E s).gyroDev0.gyroADCRaw (atGate b E s).gyroDev0.gyroZero
            (atGate b E s).gyroDev0.gyroAlign (atGate b E s).gyroDev0.scale) } }) := by
  unfold readSucceeds at hread
  obtain ⟨hrx, hry, hrz⟩ := hr
  obtain ⟨hzx, hzy, hzz⟩ := hz
  have hx := toInt32_sub_of_isInt16 _ _ hrx hzx
  have hy := toInt32_sub_of_isInt16 _ _ hry hzy
  have hz := toInt32_sub_of_isInt16 _ _ hrz hzz
  have hg := atGate_gyro b E s
  unfold atGate deviceAfterRead at hdone hx hy hz hg
  unfold gyroUpdateAndCalibrate atGate deviceAfterRead conditionedSample
  simp only [hread, hdone, if_true, hx, hy, hz, Vec3.map, hg]

/-- Claim C1.  When the driver read succeeds and the calibration is complete at
the gate, with 16-bit raw counts `r` and zero offset `z` in the device record,
`gyroUpdateAndCalibrate` returns true and writes the conditioned sample: board
alignment of sensor alignment of the exact difference `r - z` (the 32-bit
subtraction does not wrap), converted to float and multiplied by the scale; it
changes nothing else of the state it read.  The product is written as the
code computes it, converted count times scale; it is scale times converted
count wherever the float product commutes. -/
theorem gyroUpdateAndCalibrate_conditioned (b : BuildConfig) (E : Externals) (s : gyroState E)
    (hread : readSucceeds E s = true)
    (hdone : E.zeroCalibrationIsCompleteV (atGate b E s).gyroCalibration0 = true)
    (hr : (atGate b E s).gyroDev0.gyroADCRaw.isInt16)
    (hz : (atGate b E s).gyroDev0.gyroZero.isInt16) :
    (gyroUpdateAndCalibrate b E s).1 = true ∧
    (gyroUpdateAndCalibrate b E s).2.gyro.gyroADCf =
      conditionedSample E (atGate b E s).gyroDev0.gyroADCRaw (atGate b E s).gyroDev0.gyroZero
        (atGate b E s).gyroDev0.gyroAlign (atGate b E s).gyroDev0.scale ∧
    (gyroUpdateAndCalibrate b E s).2.gyroDev0 = (atGate b E s).gyroDev0 ∧
    (gyroUpdateAndCalibrate b E s).2 =
      { atGate b E s with gyro := { s.gyro with
          gyroADCf := (gyroUpdateAndCalibrate b E s).2.gyro.gyroADCf } } ∧
    ((∀ x y, E.fmul x y = E.fmul y x) →
      (gyroUpdateAndCalibrate b E s).2.gyro.gyroADCf =
        (E.applyBoardAlignment (E.applySensorAlignment
          ⟨(atGate b E s).gyroDev0.gyroADCRaw.x - (atGate b E s).gyroDev0.gyroZero.x,
            (atGate b E s).gyroDev0.gyroADCRaw.y - (atGate b E s).gyroDev0.gyroZero.y,
            (atGate b E s).gyroDev0.gyroADCRaw.z - (atGate b E s).gyroDev0.gyroZero.z⟩
          (atGate b E s).gyroDev0.gyroAlign)).map
          (fun t => E.fmul (atGate b E s).gyroDev0.scale (E.ofInt t))) := by
  rw [gyroUpdateAndCalibrate_of_complete b E s hread hdone hr hz]
  refine ⟨rfl, rfl, rfl, rfl, ?_⟩
  intro hcomm
  simp only [conditionedSample, Vec3.map, hcomm]

/-! ## Filter cascade -/

theorem gyroFilterAxis_eq (b : BuildConfig) (E : Externals) (axis : Fin 3) (s : gyroState E) :
    gyroFilterAxis b E axis s = cascadeAxis b E axis s := by
  obtain ⟨g, dev, temp, cal, fn1, st1, fn2, st2, an, dn, sn, cfg, ds, rpm, kal, env, tr⟩ := s
  obtain ⟨m1, m2, m3, m4, m5, m6, m7, m8, m9, m10, dual, dyn, kalm, rpmf, sim⟩ := b
  cases rpmf <;> cases dyn <;> cases kalm <;> cases hk : cfg.kalmanEnabled <;>
    cases hd : E.dynamicGyroNotchEnabled dn <;>
    simp [gyroFilterAxis, cascadeAxis, axisRpm, axisLowPass, axisPrimary, axisSecondary,
      axisSmoother, rpmNotchStage, lowPassStage, primaryNotchStage, secondaryNotchStage,
      smootherStage, hk, hd]

theorem Vec3.get_zero {α : Type} (v : Vec3 α) : v.get 0 = v.x := rfl

theorem Vec3.get_one {α : Type} (v : Vec3 α) : v.get 1 = v.y := rfl

theorem Vec3.get_two {α : Type} (v : Vec3 α) : v.get 2 = v.z := rfl

theorem Vec3.set_zero {α : Type} (v : Vec3 α) (a : α) : v.set 0 a = ⟨a, v.y, v.z⟩ := rfl

theorem Vec3.set_one {α : Type} (v : Vec3 α) (a : α) : v.set 1 a = ⟨v.x, a, v.z⟩ := rfl

theorem Vec3.set_two {α : Type} (v : Vec3 α) (a : α) : v.set 2 a = ⟨v.x, v.y, a⟩ := rfl

theorem forAxes_cascadeAxis (b : BuildConfig) (E : Externals) (s : gyroState E) :
    forAxes (cascadeAxis b E) s = postFilter b E s := by
  obtain ⟨g, dev, temp, cal, fn1, st1, fn2, st2, an, dn, sn, cfg, ds, rpm, kal, env, tr⟩ := s
  obtain ⟨ini, tl, adc, raw⟩ := g
  obtain ⟨x, y, z⟩ := adc
  simp only [forAxes, cascadeAxis, axisRpm, axisLowPass, axisPrimary, axisSecondary,
    axisSmoother, postFilter, runStage, Vec3.get_zero, Vec3.get_one, Vec3.get_two,
    Vec3.set_zero, Vec3.set_one, Vec3.set_two]

theorem forAxes_gyroFilterAxis (b : BuildConfig) (E : Externals) (s : gyroState E) :
    forAxes (gyroFilterAxis b E) s = postFilter b E s := by
  rw [← forAxes_cascadeAxis]
  simp only [forAxes, gyroFilterAxis_eq]

theorem gyroFilterRetune_gyro (b : BuildConfig) (E : Externals) (s : gyroState E) :
    (gyroFilterRetune b E s).gyro = s.gyro := by
  unfold gyroFilterRetune
  split
  · dsimp only
    split <;> rfl
  · rfl

theorem gyroFilterRetune_gyroLpf (b : BuildConfig) (E : Externals) (s : gyroState E) :
    (gyroFilterRetune b E s).gyroLpfState = s.gyroLpfState ∧
    (gyroFilterRetune b E s).gyroLpfApplyFn = s.gyroLpfApplyFn := by
  unfold gyroFilterRetune
  split
  · dsimp only
    split <;> exact ⟨rfl, rfl⟩
  · exact ⟨rfl, rfl⟩

theorem gyroFilter_of_initialized (b : BuildConfig) (E : Externals) (s : gyroState E)
    (hinit : s.gyro.initialized = true) :
    gyroFilter b E s = gyroFilterRetune b E (postFilter b E s) := by
  unfold gyroFilter
  simp only [hinit, Bool.not_true, Bool.false_eq_true, if_false]
  rw [forAxes_gyroFilterAxis]

theorem postFilter_gyroADCf (b : BuildConfig) (E : Externals) (s : gyroState E) :
    (postFilter b E s).gyro.gyroADCf = postFilterVector b E s := rfl

theorem runStage_passthrough {σ α : Type} (stage : σ → Fin 3 → α → σ × α) (st : σ)
    (h : ∀ axis x, stage st axis x = (st, x)) (v : Vec3 α) :
    runStage stage st v = (st, v) := by
  simp [runStage, h]

/-- Claim C8.  On an initialized state `gyroFilter` replaces the published
vector by smoother(secondaryNotch(primaryNotch(lowPass(rpmNotch(x))))): every
sample passes the five stages in this order, each stage working on its own
state from axis to axis, a stage that is compiled out or disabled handing its
input on.  `initGyroFilter` with cutoff 0 installs the null filter and leaves
the filter states alone, so `gyroInitFilters` does that to the main low-pass
when `gyro_main_lpf_hz` is 0.  When the main low-pass is the null filter and the
null filter hands its input on, the primary dynamic notch is disabled, the
secondary notch and the RPM notch hand their input on and the smoother is
disabled, `gyroFilter` changes nothing at all, whatever the published
vector is. -/
theorem gyroFilter_stage_order (b : BuildConfig) (E : Externals) (s : gyroState E)
    (hinit : s.gyro.initialized = true) :
    (gyroFilter b E s).gyro.gyroADCf =
      (runStage (smootherStage b E s.gyroConfig) s.kalman
        (runStage (secondaryNotchStage b E) s.secondaryDynamicGyroNotchState
          (runStage (primaryNotchStage b E) (s.gyroAnalyseState, s.dynamicGyroNotchState)
            (runStage (lowPassStage E s.gyroLpf2ApplyFn) s.gyroLpf2State
              (runStage (rpmNotchStage b E) s.rpmFilter s.gyro.gyroADCf).2).2).2).2).2 ∧
    (∀ (st : Vec3 E.filter_t) (type looptime : Nat),
      initGyroFilter E st type 0 looptime = (filterApplyFnPtr.nullFilterApply, st)) ∧
    (s.gyroConfig.gyro_main_lpf_hz = 0 →
      (gyroInitFilters b E s).gyroLpf2ApplyFn = filterApplyFnPtr.nullFilterApply ∧
      (gyroInitFilters b E s).gyroLpf2State = s.gyroLpf2State) ∧
    (s.gyroLpf2ApplyFn = filterApplyFnPtr.nullFilterApply →
      (∀ f x, E.nullFilterApply f x = (f, x)) →
      E.dynamicGyroNotchEnabled s.dynamicGyroNotchState = false →
      (∀ axis x, E.secondaryDynamicGyroNotchFiltersApply s.secondaryDynamicGyroNotchState axis x
        = (s.secondaryDynamicGyroNotchState, x)) →
      (∀ axis x, E.rpmFilterGyroApply s.rpmFilter axis x = (s.rpmFilter, x)) →
      s.gyroConfig.kalmanEnabled = false →
      gyroFilter b E s = s) := by
  refine ⟨?_, ?_, ?_, ?_⟩
  · rw [gyroFilter_of_initialized b E s hinit, gyroFilterRetune_gyro, postFilter_gyroADCf]
    rfl
  · intro st type looptime
    simp [initGyroFilter]
  · intro hz
    unfold gyroInitFilters
    simp only [hz]
    split <;> simp [initGyroFilter]
  · intro hfn hnull hdyn hsec hrpm hkal
    rw [gyroFilter_of_initialized b E s hinit]
    have h1 : runStage (rpmNotchStage b E) s.rpmFilter s.gyro.gyroADCf
        = (s.rpmFilter, s.gyro.gyroADCf) := by
      apply runStage_passthrough
      intro axis x
      unfold rpmNotchStage
      split
      · exact hrpm axis x
      · rfl
    have h2 : ∀ v, runStage (lowPassStage E s.gyroLpf2ApplyFn) s.gyroLpf2State v
        = (s.gyroLpf2State, v) := by
      intro v
      obtain ⟨fx, fy, fz⟩ := s.gyroLpf2State
      simp [runStage, lowPassStage, hfn, filterApplyFnPtr.call, hnull, Vec3.get, Vec3.set]
    have h3 : ∀ v, runStage (primaryNotchStage b E)
        (s.gyroAnalyseState, s.dynamicGyroNotchState) v
        = ((s.gyroAnalyseState, s.dynamicGyroNotchState), v) := by
      intro v
      apply runStage_passthrough
      intro axis x
      simp [primaryNotchStage, hdyn]
    have h4 : ∀ v, runStage (secondaryNotchStage b E) s.secondaryDynamicGyroNotchState v
        = (s.secondaryDynamicGyroNotchState, v) := by
      intro v
      apply runStage_passthrough
      intro axis x
      unfold secondaryNotchStage
      split
      · exact hsec axis x
      · rfl
    have h5 : ∀ v, runStage (smootherStage b E s.gyroConfig) s.kalman v = (s.kalman, v) := by
      intro v
      apply runStage_passthrough
      intro axis x
      simp [smootherStage, hkal]
    have hp : postFilter b E s = s := by
      simp only [postFilter, h1, h2, h3, h4, h5]
    rw [hp]
    simp [gyroFilterRetune, hdyn]

/-! ## Calibration iterations -/

theorem performGyroCalibration_of_complete (b : BuildConfig) (E : Externals) (s : gyroState E)
    (h : E.zeroCalibrationIsCompleteV (calibrationAfterSample E s) = true) :
    (performGyroCalibration b E s).gyroCalibration0 = calibrationAfterSample E s ∧
    (performGyroCalibration b E s).trace =
      s.trace ++ [Event.zeroCalibrationAddValueV, Event.schedulerResetTaskStatistics] ∧
    (performGyroCalibration b E s).gyroDev0.gyroZero =
      (E.zeroCalibrationGetZeroV (calibrationAfterSample E s)
        (s.gyroDev0.gyroADCRaw.map E.ofInt)).map E.floatToInt16 ∧
    (performGyroCalibration b E s).gyro = s.gyro ∧
    (performGyroCalibration b E s).gyroLpfState = s.gyroLpfState ∧
    (performGyroCalibration b E s).gyroLpfApplyFn = s.gyroLpfApplyFn := by
  unfold calibrationAfterSample at h
  unfold performGyroCalibration calibrationAfterSample
  simp only [h, if_true]
  cases b.USE_IMU_FAKE <;> simp

theorem performGyroCalibration_of_not_complete (b : BuildConfig) (E : Externals)
    (s : gyroState E)
    (h : E.zeroCalibrationIsCompleteV (calibrationAfterSample E s) = false) :
    performGyroCalibration b E s =
      { s with gyroCalibration0 := calibrationAfterSample E s,
               trace := s.trace ++ [Event.zeroCalibrationAddValueV],
               gyroDev0 := { s.gyroDev0 with gyroZero := ⟨0, 0, 0⟩ } } := by
  unfold calibrationAfterSample at h
  unfold performGyroCalibration calibrationAfterSample
  simp [h]

theorem performGyroCalibration_adds_once (b : BuildConfig) (E : Externals) (s : gyroState E) :
    ((performGyroCalibration b E s).trace.drop s.trace.length).count
      Event.zeroCalibrationAddValueV = 1 := by
  cases h : E.zeroCalibrationIsCompleteV (calibrationAfterSample E s)
  · rw [performGyroCalibration_of_not_complete b E s h]
    simp
  · rw [(performGyroCalibration_of_complete b E s h).2.1]
    simp

/-- Claim C10.  `performGyroCalibration` adds the raw vector of the device to
the accumulator, once.  If the accumulator then reports completion, the
scheduler statistics reset is called and the device zero offset is the zero
vector the accumulator gives, converted to the device's 16-bit integers.
Otherwise no reset is called and the device zero offset is (0,0,0).  So the
reset happens on an iteration if and only if the calibration is complete after
that iteration's sample. -/
theorem performGyroCalibration_completion (b : BuildConfig) (E : Externals) (s : gyroState E) :
    (performGyroCalibration b E s).gyroCalibration0 =
      E.zeroCalibrationAddValueV s.env s.gyroCalibration0 (s.gyroDev0.gyroADCRaw.map E.ofInt) ∧
    ((performGyroCalibration b E s).trace.drop s.trace.length).count
      Event.zeroCalibrationAddValueV = 1 ∧
    (E.zeroCalibrationIsCompleteV (performGyroCalibration b E s).gyroCalibration0 = true →
      (performGyroCalibration b E s).trace =
        s.trace ++ [Event.zeroCalibrationAddValueV, Event.schedulerResetTaskStatistics] ∧
      (performGyroCalibration b E s).gyroDev0.gyroZero =
        (E.zeroCalibrationGetZeroV (performGyroCalibration b E s).gyroCalibration0
          (s.gyroDev0.gyroADCRaw.map E.ofInt)).map E.floatToInt16) ∧
    (E.zeroCalibrationIsCompleteV (performGyroCalibration b E s).gyroCalibration0 = false →
      (performGyroCalibration b E s).trace = s.trace ++ [Event.zeroCalibrationAddValueV] ∧
      (performGyroCalibration b E s).gyroDev0.gyroZero = ⟨0, 0, 0⟩) ∧
    (Event.schedulerResetTaskStatistics ∈
        (performGyroCalibration b E s).trace.drop s.trace.length ↔
      E.zeroCalibrationIsCompleteV (performGyroCalibration b E s).gyroCalibration0 = true) := by
  cases h : E.zeroCalibrationIsCompleteV (calibrationAfterSample E s)
  · have hs := performGyroCalibration_of_not_complete b E s h
    have hc : (performGyroCalibration b E s).gyroCalibration0 = calibrationAfterSample E s := by
      rw [hs]
    have ht : (performGyroCalibration b E s).trace =
        s.trace ++ [Event.zeroCalibrationAddValueV] := by
      rw [hs]
    have hz : (performGyroCalibration b E s).gyroDev0.gyroZero = ⟨0, 0, 0⟩ := by
      rw [hs]
    rw [hc, ht, hz, h]
    refine ⟨rfl, ?_, ?_, ?_, ?_⟩
    · simp
    · intro hf
      cases hf
    · intro _
      exact ⟨rfl, rfl⟩
    · simp
  · obtain ⟨hc, ht, hz, _, _, _⟩ := performGyroCalibration_of_complete b E s h
    rw [hc, ht, hz, h]
    refine ⟨rfl, ?_, ?_, ?_, ?_⟩
    · simp
    · intro _
      exact ⟨rfl, rfl⟩
    · intro hf
      cases hf
    · simp

theorem performGyroCalibration_frame (b : BuildConfig) (E : Externals) (s : gyroState E) :
    (performGyroCalibration b E s).gyro = s.gyro ∧
    (performGyroCalibration b E s).gyroLpfState = s.gyroLpfState ∧
    (performGyroCalibration b E s).gyroLpfApplyFn = s.gyroLpfApplyFn ∧
    (performGyroCalibration b E s).gyroCalibration0 = calibrationAfterSample E s := by
  cases h : E.zeroCalibrationIsCompleteV (calibrationAfterSample E s)
  · rw [performGyroCalibration_of_not_complete b E s h]
    exact ⟨rfl, rfl, rfl, rfl⟩
  · obtain ⟨hc, _, _, hg, hl, hf⟩ := performGyroCalibration_of_complete b E s h
    exact ⟨hg, hl, hf, hc⟩

theorem atGate_of_enabled (b : BuildConfig) (E : Externals) (s : gyroState E)
    (hen : (b.USE_IMU_FAKE || s.gyroConfig.init_gyro_cal_enabled) = true) :
    atGate b E s = { s with gyroDev0 := deviceAfterRead E s } := by
  unfold atGate applyGyroCalConfig
  cases hf : b.USE_IMU_FAKE <;> cases hc : s.gyroConfig.init_gyro_cal_enabled <;>
    simp_all

theorem gyroUpdateAndCalibrate_of_calibrating (b : BuildConfig) (E : Externals)
    (s : gyroState E) (hread : readSucceeds E s = true)
    (hnc : E.zeroCalibrationIsCompleteV (atGate b E s).gyroCalibration0 = false) :
    gyroUpdateAndCalibrate b E s =
      (false, { performGyroCalibration b E (atGate b E s) with
        gyro := { (performGyroCalibration b E (atGate b E s)).gyro with
          gyroADCf := neutralSample E } }) := by
  unfold readSucceeds at hread
  unfold atGate deviceAfterRead at hnc
  unfold gyroUpdateAndCalibrate atGate deviceAfterRead neutralSample
  simp [hread, hnc]

theorem gyroUpdate_of_active (b : BuildConfig) (E : Externals) (s : gyroState E)
    (hinit : s.gyro.initialized = true) (hsim : simulatorActive b E s = false) :
    gyroUpdate b E s =
      if (gyroUpdateAndCalibrate b E s).1 then
        forAxes (gyroUpdateAxis E) (gyroUpdateAndCalibrate b E s).2
      else (gyroUpdateAndCalibrate b E s).2 := by
  unfold simulatorActive at hsim
  unfold gyroUpdate
  simp only [hsim, hinit]
  cases (gyroUpdateAndCalibrate b E s).1 <;> simp

/-- Claim C2.  On an initialized state with calibration enabled, when the read
succeeds and the calibration is not complete before the call,
`gyroUpdateAndCalibrate` adds the raw vector just read to the accumulator
exactly once, writes the neutral sample and returns false, whether or not this
sample completes the calibration; `gyroUpdate` then returns at once, so it
publishes (0,0,0) in `gyro.gyroADCf` and leaves `gyro.gyroRaw` and the
anti-aliasing filter (function and states) as they were. -/
theorem gyroUpdate_while_calibrating (b : BuildConfig) (E : Externals) (s : gyroState E)
    (hinit : s.gyro.initialized = true) (hsim : simulatorActive b E s = false)
    (hen : (b.USE_IMU_FAKE || s.gyroConfig.init_gyro_cal_enabled) = true)
    (hread : readSucceeds E s = true)
    (hnc : E.zeroCalibrationIsCompleteV s.gyroCalibration0 = false) :
    (gyroUpdateAndCalibrate b E s).1 = false ∧
    (gyroUpdateAndCalibrate b E s).2.gyro.gyroADCf = ⟨E.fzero, E.fzero, E.fzero⟩ ∧
    (gyroUpdateAndCalibrate b E s).2.gyroCalibration0 =
      E.zeroCalibrationAddValueV s.env s.gyroCalibration0
        ((deviceAfterRead E s).gyroADCRaw.map E.ofInt) ∧
    ((gyroUpdateAndCalibrate b E s).2.trace.drop s.trace.length).count
      Event.zeroCalibrationAddValueV = 1 ∧
    gyroUpdate b E s = (gyroUpdateAndCalibrate b E s).2 ∧
    (gyroUpdate b E s).gyro.gyroADCf = ⟨E.fzero, E.fzero, E.fzero⟩ ∧
    (gyroUpdate b E s).gyro.gyroRaw = s.gyro.gyroRaw ∧
    (gyroUpdate b E s).gyroLpfState = s.gyroLpfState ∧
    (gyroUpdate b E s).gyroLpfApplyFn = s.gyroLpfApplyFn := by
  have hg := atGate_of_enabled b E s hen
  have hnc2 : E.zeroCalibrationIsCompleteV (atGate b E s).gyroCalibration0 = false := by
    rw [hg]
    exact hnc
  have hval := gyroUpdateAndCalibrate_of_calibrating b E s hread hnc2
  have hup : gyroUpdate b E s = (gyroUpdateAndCalibrate b E s).2 := by
    rw [gyroUpdate_of_active b E s hinit hsim, hval]
    simp
  obtain ⟨hpg, hpl, hpf, hpc⟩ := performGyroCalibration_frame b E (atGate b E s)
  have hcount := performGyroCalibration_adds_once b E (atGate b E s)
  rw [hup, hval]
  refine ⟨rfl, rfl, ?_, ?_, rfl, rfl, ?_, ?_, ?_⟩
  · show (performGyroCalibration b E (atGate b E s)).gyroCalibration0 = _
    rw [hpc, hg]
    rfl
  · show ((performGyroCalibration b E (atGate b E s)).trace.drop s.trace.length).count _ = 1
    rw [hg] at hcount
    rw [hg]
    exact hcount
  · show (performGyroCalibration b E (atGate b E s)).gyro.gyroRaw = _
    rw [hpg, hg]
  · show (performGyroCalibration b E (atGate b E s)).gyroLpfState = _
    rw [hpl, hg]
  · show (performGyroCalibration b E (atGate b E s)).gyroLpfApplyFn = _
    rw [hpf, hg]

/-! ## Conditioned iterations of `gyroUpdate` -/

theorem forAxes_gyroUpdateAxis (E : Externals) (s : gyroState E) :
    forAxes (gyroUpdateAxis E) s =
      { s with
        gyro := { s.gyro with
          gyroRaw := s.gyro.gyroADCf,
          gyroADCf := (antiAliasing E s.gyroLpfApplyFn s.gyroLpfState s.gyro.gyroADCf).2 },
        gyroLpfState := (antiAliasing E s.gyroLpfApplyFn s.gyroLpfState s.gyro.gyroADCf).1 } := by
  obtain ⟨g, dev, temp, cal, fn1, st1, fn2, st2, an, dn, sn, cfg, ds, rpm, kal, env, tr⟩ := s
  obtain ⟨ini, tl, adc, raw⟩ := g
  obtain ⟨x, y, z⟩ := adc
  obtain ⟨rx, ry, rz⟩ := raw
  obtain ⟨fx, fy, fz⟩ := st1
  simp only [forAxes, gyroUpdateAxis, antiAliasing, Vec3.get_zero, Vec3.get_one, Vec3.get_two,
    Vec3.set_zero, Vec3.set_one, Vec3.set_two]

theorem atGate_frame (b : BuildConfig) (E : Externals) (s : gyroState E) :
    (atGate b E s).gyroLpfState = s.gyroLpfState ∧
    (atGate b E s).gyroLpfApplyFn = s.gyroLpfApplyFn ∧
    (atGate b E s).trace = s.trace ∧
    (atGate b E s).gyroConfig = s.gyroConfig ∧
    (atGate b E s).gyroDev0.gyroADCRaw = (deviceAfterRead E s).gyroADCRaw ∧
    (atGate b E s).gyroDev0.gyroAlign = (deviceAfterRead E s).gyroAlign ∧
    (atGate b E s).gyroDev0.scale = (deviceAfterRead E s).scale := by
  unfold atGate applyGyroCalConfig
  split <;> exact ⟨rfl, rfl, rfl, rfl, rfl, rfl, rfl⟩

/-- A successful read on a complete calibration: `gyroUpdate` publishes the
conditioned sample as `gyroRaw` and its anti-aliased value as `gyroADCf`. -/
theorem gyroUpdate_of_complete (b : BuildConfig) (E : Externals) (s : gyroState E)
    (hinit : s.gyro.initialized = true) (hsim : simulatorActive b E s = false)
    (hread : readSucceeds E s = true)
    (hdone : E.zeroCalibrationIsCompleteV (atGate b E s).gyroCalibration0 = true)
    (hr : (atGate b E s).gyroDev0.gyroADCRaw.isInt16)
    (hz : (atGate b E s).gyroDev0.gyroZero.isInt16) :
    (gyroUpdate b E s).gyro.gyroRaw =
      conditionedSample E (deviceAfterRead E s).gyroADCRaw (atGate b E s).gyroDev0.gyroZero
        (deviceAfterRead E s).gyroAlign (deviceAfterRead E s).scale ∧
    (gyroUpdate b E s).gyro.gyroADCf =
      (antiAliasing E s.gyroLpfApplyFn s.gyroLpfState
        (conditionedSample E (deviceAfterRead E s).gyroADCRaw (atGate b E s).gyroDev0.gyroZero
          (deviceAfterRead E s).gyroAlign (deviceAfterRead E s).scale)).2 ∧
    (gyroUpdate b E s).gyroLpfState =
      (antiAliasing E s.gyroLpfApplyFn s.gyroLpfState
        (conditionedSample E (deviceAfterRead E s).gyroADCRaw (atGate b E s).gyroDev0.gyroZero
          (deviceAfterRead E s).gyroAlign (deviceAfterRead E s).scale)).1 ∧
    (gyroUpdate b E s).trace = s.trace ∧
    (gyroUpdate b E s).gyroCalibration0 = (atGate b E s).gyroCalibration0 ∧
    (gyroUpdate b E s).gyroDev0 = (atGate b E s).gyroDev0 ∧
    (gyroUpdate b E s).gyroConfig = s.gyroConfig ∧
    (gyroUpdate b E s).gyro.initialized = true := by
  obtain ⟨h1, h2, h3, h4, h5, h6, h7⟩ := atGate_frame b E s
  rw [gyroUpdate_of_active b E s hinit hsim,
    gyroUpdateAndCalibrate_of_complete b E s hread hdone hr hz]
  simp only [if_true, forAxes_gyroUpdateAxis, h1, h2, h3, h4, h5, h6, h7, hinit]
  exact ⟨trivial, trivial, trivial, trivial, trivial, trivial, trivial, trivial⟩

theorem atGate_of_disabled (b : BuildConfig) (E : Externals) (s : gyroState E)
    (hfake : b.USE_IMU_FAKE = false) (hdis : s.gyroConfig.init_gyro_cal_enabled = false) :
    (atGate b E s).gyroCalibration0 =
      { s.gyroCalibration0 with params_state := E.ZERO_CALIBRATION_DONE } ∧
    (atGate b E s).gyroDev0 =
      { deviceAfterRead E s with gyroZero := s.gyroConfig.gyro_zero_cal } := by
  unfold atGate applyGyroCalConfig
  simp [hfake, hdis]

/-- Claim C7.  In a build that honours the setting (`USE_IMU_FAKE` not defined),
on an initialized state with `init_gyro_cal_enabled` false and any configured
constant `c = gyro_zero_cal`, with the calibration library reporting a
calibration whose state is `ZERO_CALIBRATION_DONE` as complete: a `gyroUpdate`
whose read succeeds calls nothing outside the module (no sample is added to
the accumulator), leaves the accumulator as it was except for its state,
which is `ZERO_CALIBRATION_DONE`, leaves the device zero offset equal to `c`,
and publishes the conditioned reading on this very iteration: `gyroRaw` is
scale times alignment of `r - c` and `gyroADCf` is its anti-aliased value.
The configuration and the initialized flag are kept, so the same holds for
every later `gyroUpdate`. -/
theorem gyroUpdate_calibration_disabled (b : BuildConfig) (E : Externals) (s : gyroState E)
    (hinit : s.gyro.initialized = true) (hsim : simulatorActive b E s = false)
    (hfake : b.USE_IMU_FAKE = false)
    (hdis : s.gyroConfig.init_gyro_cal_enabled = false)
    (hread : readSucceeds E s = true)
    (hlib : ∀ c : zeroCalibrationVector_t E.calBody_t,
      c.params_state = E.ZERO_CALIBRATION_DONE → E.zeroCalibrationIsCompleteV c = true)
    (hr : (deviceAfterRead E s).gyroADCRaw.isInt16)
    (hc : s.gyroConfig.gyro_zero_cal.isInt16) :
    (gyroUpdate b E s).trace = s.trace ∧
    (gyroUpdate b E s).gyroCalibration0.body = s.gyroCalibration0.body ∧
    (gyroUpdate b E s).gyroCalibration0.params_state = E.ZERO_CALIBRATION_DONE ∧
    (gyroUpdate b E s).gyroDev0.gyroZero = s.gyroConfig.gyro_zero_cal ∧
    (gyroUpdate b E s).gyroDev0 =
      { deviceAfterRead E s with gyroZero := s.gyroConfig.gyro_zero_cal } ∧
    (gyroUpdate b E s).gyro.gyroRaw =
      conditionedSample E (deviceAfterRead E s).gyroADCRaw s.gyroConfig.gyro_zero_cal
        (deviceAfterRead E s).gyroAlign (deviceAfterRead E s).scale ∧
    (gyroUpdate b E s).gyro.gyroADCf =
      (antiAliasing E s.gyroLpfApplyFn s.gyroLpfState
        (conditionedSample E (deviceAfterRead E s).gyroADCRaw s.gyroConfig.gyro_zero_cal
          (deviceAfterRead E s).gyroAlign (deviceAfterRead E s).scale)).2 ∧
    (gyroUpdate b E s).gyroConfig = s.gyroConfig ∧
    (gyroUpdate b E s).gyro.initialized = true := by
  obtain ⟨hcal, hdev⟩ := atGate_of_disabled b E s hfake hdis
  have hraw := (atGate_frame b E s).2.2.2.2.1
  have hzero : (atGate b E s).gyroDev0.gyroZero = s.gyroConfig.gyro_zero_cal := by
    rw [hdev]
  have hdone : E.zeroCalibrationIsCompleteV (atGate b E s).gyroCalibration0 = true := by
    apply hlib
    rw [hcal]
  obtain ⟨g1, g2, _, g4, g5, g6, g7, g8⟩ := gyroUpdate_of_complete b E s hinit hsim hread hdone
    (by rw [hraw]; exact hr) (by rw [hzero]; exact hc)
  rw [hzero] at g1 g2
  refine ⟨g4, ?_, ?_, ?_, ?_, g1, g2, g7, g8⟩
  · rw [g5, hcal]
  · rw [g5, hcal]
  · rw [g6, hzero]
  · rw [g6, hdev]

/-- Claim C5, as the code has it.  On an initialized state with calibration
enabled whose calibration has ended without success (complete, not
successful), `gyroIsCalibrationComplete` answers false, and yet a `gyroUpdate`
whose read succeeds publishes the conditioned reading, not the neutral
sample: `gyroRaw` is scale times alignment of `r - z` for the raw counts `r`
just read and the device zero offset `z`, and `gyroADCf` is its anti-aliased
value.  The conditioner tests completion only. -/
theorem gyroUpdate_after_failed_calibration (b : BuildConfig) (E : Externals) (s : gyroState E)
    (hinit : s.gyro.initialized = true) (hsim : simulatorActive b E s = false)
    (hen : (b.USE_IMU_FAKE || s.gyroConfig.init_gyro_cal_enabled) = true)
    (hcomplete : E.zeroCalibrationIsCompleteV s.gyroCalibration0 = true)
    (hfailed : E.zeroCalibrationIsSuccessfulV s.gyroCalibration0 = false)
    (hread : readSucceeds E s = true)
    (hr : (deviceAfterRead E s).gyroADCRaw.isInt16)
    (hz : (deviceAfterRead E s).gyroZero.isInt16) :
    gyroIsCalibrationComplete b E s = false ∧
    (gyroUpdate b E s).gyro.gyroRaw =
      conditionedSample E (deviceAfterRead E s).gyroADCRaw (deviceAfterRead E s).gyroZero
        (deviceAfterRead E s).gyroAlign (deviceAfterRead E s).scale ∧
    (gyroUpdate b E s).gyro.gyroADCf =
      (antiAliasing E s.gyroLpfApplyFn s.gyroLpfState
        (conditionedSample E (deviceAfterRead E s).gyroADCRaw (deviceAfterRead E s).gyroZero
          (deviceAfterRead E s).gyroAlign (deviceAfterRead E s).scale)).2 := by
  have hg := atGate_of_enabled b E s hen
  have hdone : E.zeroCalibrationIsCompleteV (atGate b E s).gyroCalibration0 = true := by
    rw [hg]
    exact hcomplete
  have hzero : (atGate b E s).gyroDev0.gyroZero = (deviceAfterRead E s).gyroZero := by
    rw [hg]
  obtain ⟨g1, g2, _⟩ := gyroUpdate_of_complete b E s hinit hsim hread hdone
    (by rw [hg]; exact hr) (by rw [hzero]; exact hz)
  rw [hzero] at g1 g2
  refine ⟨?_, g1, g2⟩
  unfold gyroIsCalibrationComplete
  cases hf : b.USE_IMU_FAKE <;> cases hc : s.gyroConfig.init_gyro_cal_enabled <;>
    simp_all

/-! ## A period without new data -/

theorem gyroUpdate_of_no_data (b : BuildConfig) (E : Externals) (s : gyroState E)
    (hinit : s.gyro.initialized = true) (hsim : simulatorActive b E s = false)
    (hno : readSucceeds E s = false) :
    gyroUpdate b E s = { s with gyroDev0 := deviceAfterRead E s } := by
  have hval : gyroUpdateAndCalibrate b E s =
      (false, { s with gyroDev0 := deviceAfterRead E s }) := by
    unfold readSucceeds at hno
    unfold gyroUpdateAndCalibrate deviceAfterRead
    simp [hno]
  rw [gyroUpdate_of_active b E s hinit hsim, hval]
  simp

theorem gyroFilterRetune_stages (b : BuildConfig) (E : Externals) (s : gyroState E) :
    (gyroFilterRetune b E s).rpmFilter = s.rpmFilter ∧
    (gyroFilterRetune b E s).gyroLpf2State = s.gyroLpf2State ∧
    (gyroFilterRetune b E s).gyroLpf2ApplyFn = s.gyroLpf2ApplyFn ∧
    (gyroFilterRetune b E s).kalman = s.kalman := by
  unfold gyroFilterRetune
  split
  · dsimp only
    split <;> exact ⟨rfl, rfl, rfl, rfl⟩
  · exact ⟨rfl, rfl, rfl, rfl⟩

theorem gyroFilterRetune_gyroDev0 (b : BuildConfig) (E : Externals) (s : gyroState E)
    (d : gyroDev E) :
    gyroFilterRetune b E { s with gyroDev0 := d } =
      { gyroFilterRetune b E s with gyroDev0 := d } := by
  unfold gyroFilterRetune
  dsimp only
  split
  · split <;> rfl
  · rfl

/-- Claim C6, as the code has it.  On an initialized state, when the read of a
period reports no new data, `gyroUpdate` changes nothing but the device record
the driver was handed: `gyro.gyroADCf`, `gyro.gyroRaw` and every filter state
are held.  The `gyroFilter` of the same period then does to that state what
`gyroFilter` does in any other period: it leaves `gyro.gyroRaw` and the
anti-aliasing filter alone, publishes
smoother(secondaryNotch(primaryNotch(lowPass(rpmNotch(x))))) of the held
vector `x`, and leaves in every stage the state that the stage returns after
taking the held sample on X, Y and Z (the RPM notch, the main low-pass and the
smoother are spelled out; the notch banks and the analyser are those of the
cascade followed by the retuning block, and of the cascade alone when the
retuning block is idle). -/
theorem gyroUpdate_gyroFilter_no_new_data (b : BuildConfig) (E : Externals) (s : gyroState E)
    (hinit : s.gyro.initialized = true) (hsim : simulatorActive b E s = false)
    (hno : readSucceeds E s = false) :
    gyroUpdate b E s = { s with gyroDev0 := deviceAfterRead E s } ∧
    gyroFilter b E (gyroUpdate b E s) =
      { gyroFilter b E s with gyroDev0 := deviceAfterRead E s } ∧
    gyroFilter b E (gyroUpdate b E s) =
      gyroFilterRetune b E (postFilter b E { s with gyroDev0 := deviceAfterRead E s }) ∧
    ((b.USE_DYNAMIC_FILTERS && E.dynamicGyroNotchEnabled
        (postFilter b E { s with gyroDev0 := deviceAfterRead E s }).dynamicGyroNotchState)
        = false →
      gyroFilter b E (gyroUpdate b E s) =
        postFilter b E { s with gyroDev0 := deviceAfterRead E s }) ∧
    (gyroFilter b E (gyroUpdate b E s)).gyro.gyroRaw = s.gyro.gyroRaw ∧
    (gyroFilter b E (gyroUpdate b E s)).gyroLpfState = s.gyroLpfState ∧
    (gyroFilter b E (gyroUpdate b E s)).gyroLpfApplyFn = s.gyroLpfApplyFn ∧
    (gyroFilter b E (gyroUpdate b E s)).gyro.gyroADCf =
      (runStage (smootherStage b E s.gyroConfig) s.kalman
        (runStage (secondaryNotchStage b E) s.secondaryDynamicGyroNotchState
          (runStage (primaryNotchStage b E) (s.gyroAnalyseState, s.dynamicGyroNotchState)
            (runStage (lowPassStage E s.gyroLpf2ApplyFn) s.gyroLpf2State
              (runStage (rpmNotchStage b E) s.rpmFilter s.gyro.gyroADCf).2).2).2).2).2 ∧
    (gyroFilter b E (gyroUpdate b E s)).rpmFilter =
      (runStage (rpmNotchStage b E) s.rpmFilter s.gyro.gyroADCf).1 ∧
    (gyroFilter b E (gyroUpdate b E s)).gyroLpf2State =
      (runStage (lowPassStage E s.gyroLpf2ApplyFn) s.gyroLpf2State
        (runStage (rpmNotchStage b E) s.rpmFilter s.gyro.gyroADCf).2).1 ∧
    (gyroFilter b E (gyroUpdate b E s)).kalman =
      (runStage (smootherStage b E s.gyroConfig) s.kalman
        (runStage (secondaryNotchStage b E) s.secondaryDynamicGyroNotchState
          (runStage (primaryNotchStage b E) (s.gyroAnalyseState, s.dynamicGyroNotchState)
            (runStage (lowPassStage E s.gyroLpf2ApplyFn) s.gyroLpf2State
              (runStage (rpmNotchStage b E) s.rpmFilter s.gyro.gyroADCf).2).2).2).2).1 := by
  have hup := gyroUpdate_of_no_data b E s hinit hsim hno
  have hinit2 : (gyroUpdate b E s).gyro.initialized = true := by
    rw [hup]
    exact hinit
  have hf := gyroFilter_of_initialized b E (gyroUpdate b E s) hinit2
  have hl := gyroFilterRetune_gyroLpf b E (postFilter b E (gyroUpdate b E s))
  obtain ⟨r1, r2, _, r4⟩ := gyroFilterRetune_stages b E (postFilter b E (gyroUpdate b E s))
  have hp : postFilter b E { s with gyroDev0 := deviceAfterRead E s } =
      { postFilter b E s with gyroDev0 := deviceAfterRead E s } := rfl
  refine ⟨hup, ?_, ?_, ?_, ?_, ?_, ?_, ?_, ?_, ?_, ?_⟩
  · rw [hf, hup, hp, gyroFilterRetune_gyroDev0, gyroFilter_of_initialized b E s hinit]
  · rw [hf, hup]
  · intro hidle
    rw [hf, hup]
    unfold gyroFilterRetune
    simp only [hidle, Bool.false_eq_true, if_false]
  · rw [hf, gyroFilterRetune_gyro, hup]
    rfl
  · rw [hf, hl.1, hup]
    rfl
  · rw [hf, hl.2, hup]
    rfl
  · rw [hf, gyroFilterRetune_gyro, hup]
    rfl
  · rw [hf, r1, hup]
    rfl
  · rw [hf, r2, hup]
    rfl
  · rw [hf, r4, hup]
    rfl

/-! ## The uninitialized pipeline -/

/-- With `gyro.initialized` false, four of the five entry points change
nothing. -/
theorem uninitialized_noop (b : BuildConfig) (E : Externals) (s : gyroState E)
    (h : s.gyro.initialized = false) :
    gyroUpdate b E s = s ∧ gyroFilter b E s = s ∧ gyroStartCalibration b E s = s ∧
    gyroReadTemperature E s = (false, s) := by
  refine ⟨?_, ?_, ?_, ?_⟩
  · unfold gyroUpdate
    simp [h]
  · unfold gyroFilter
    simp [h]
  · unfold gyroStartCalibration
    simp [h]
  · unfold gyroReadTemperature
    simp [h]

/-- What `gyroUpdateDynamicLpf` leaves alone: everything but the states of the
main low-pass. -/
theorem gyroUpdateDynamicLpf_frame (E : Externals) (s : gyroState E) (cutoffFreq : E.F) :
    gyroUpdateDynamicLpf E s cutoffFreq =
      { s with gyroLpf2State := (gyroUpdateDynamicLpf E s cutoffFreq).gyroLpf2State } := by
  unfold gyroUpdateDynamicLpf
  split
  · rfl
  · split <;> rfl

theorem Op.run_uninitialized (b : BuildConfig) (E : Externals) (op : Op E.F) (s : gyroState E)
    (h : s.gyro.initialized = false) :
    (op.run b E s).gyro = s.gyro ∧ (op.run b E s).trace = s.trace := by
  obtain ⟨h1, h2, h3, h4⟩ := uninitialized_noop b E s h
  cases op with
  | gyroUpdate => exact ⟨by rw [Op.run, h1], by rw [Op.run, h1]⟩
  | gyroFilter => exact ⟨by rw [Op.run, h2], by rw [Op.run, h2]⟩
  | gyroStartCalibration => exact ⟨by rw [Op.run, h3], by rw [Op.run, h3]⟩
  | gyroReadTemperature => exact ⟨by rw [Op.run, h4], by rw [Op.run, h4]⟩
  | gyroUpdateDynamicLpf c =>
    rw [Op.run, gyroUpdateDynamicLpf_frame]
    exact ⟨rfl, rfl⟩

theorem runOps_uninitialized (b : BuildConfig) (E : Externals) (ops : List (Op E.F)) :
    ∀ s : gyroState E, s.gyro.initialized = false →
      (runOps b E ops s).gyro = s.gyro ∧ (runOps b E ops s).trace = s.trace := by
  induction ops with
  | nil =>
    intro s _
    exact ⟨rfl, rfl⟩
  | cons op rest ih =>
    intro s h
    obtain ⟨h1, h2⟩ := Op.run_uninitialized b E op s h
    have h3 : (op.run b E s).gyro.initialized = false := by
      rw [h1]
      exact h
    obtain ⟨h4, h5⟩ := ih (op.run b E s) h3
    have hstep : runOps b E (op :: rest) s = runOps b E rest (op.run b E s) := by
      simp [runOps]
    rw [hstep, h4, h5, h1, h2]
    exact ⟨rfl, rfl⟩

theorem firstSuccess_all_fail (E : Externals)
    (hfail : ∀ k (d : gyroDev E), (E.detectFn k d).1 = false) (l : List gyroSensor_e) :
    ∀ (dev : gyroDev E) (tr : List Event),
      (firstSuccess E l dev tr).1 = GYRO_NONE ∧
      (firstSuccess E l dev tr).2.2 = tr ++ l.map (fun k => Event.detect k false) := by
  induction l with
  | nil =>
    intro dev tr
    simp [firstSuccess]
  | cons hw rest ih =>
    intro dev tr
    have hstep : firstSuccess E (hw :: rest) dev tr =
        firstSuccess E rest (E.detectFn hw dev).2 (tr ++ [Event.detect hw false]) := by
      simp [firstSuccess, hfail]
    rw [hstep]
    obtain ⟨h1, h2⟩ := ih (E.detectFn hw dev).2 (tr ++ [Event.detect hw false])
    exact ⟨h1, by rw [h2]; simp⟩

theorem gyroInit_of_absent (b : BuildConfig) (E : Externals) (s : gyroState E)
    (hfail : ∀ k (d : gyroDev E), (E.detectFn k d).1 = false) :
    (gyroInit b E s).1 = true ∧
    (gyroInit b E s).2.gyro = gyroZeroed E ∧
    (gyroInit b E s).2.trace = s.trace ++ (candidates b).map (fun k => Event.detect k false) := by
  have hd := gyroDetect_autodetect_eq b E
    { s.gyroDev0 with imuSensorToUse := if b.USE_DUAL_GYRO then s.gyroConfig.gyro_to_use else 0 }
    s.trace
  obtain ⟨h1, h2⟩ := firstSuccess_all_fail E hfail (candidates b)
    { { s.gyroDev0 with
        imuSensorToUse := if b.USE_DUAL_GYRO then s.gyroConfig.gyro_to_use else 0 } with
      gyroAlign := E.ALIGN_DEFAULT } s.trace
  rw [← hd] at h1 h2
  unfold gyroInit
  simp only [h1, h2, if_true]
  exact ⟨trivial, rfl, trivial⟩

/-- Claim C3.  When every driver's detect fails, `gyroInit` returns true with
`gyro.initialized` false, having called nothing but the detect functions of
the candidates (so no driver's `initFn`).  After any finite sequence of
`gyroUpdate`, `gyroFilter`, `gyroStartCalibration`, `gyroReadTemperature` and
`gyroUpdateDynamicLpf` that follows, `gyro.initialized` is still false, no
further call has left the module, and the accessors are neutral:
`gyroRateDps` is 0 on each axis, `gyroGetTemperature` is 0,
`averageAbsGyroRates` is 0 and `gyroGetMeasuredRotationRate` is (0,0,0).  The
float facts used are those of zero: |0| = 0, 0 + 0 = 0, 0 / 3 = 0 and zero
degrees is zero radians. -/
theorem gyroInit_sensor_absent (b : BuildConfig) (E : Externals) (s : gyroState E)
    (hfail : ∀ k (d : gyroDev E), (E.detectFn k d).1 = false)
    (habs : E.fabsf E.fzero = E.fzero)
    (hadd : E.fadd E.fzero E.fzero = E.fzero)
    (hdiv : E.fdiv E.fzero E.fthree = E.fzero)
    (hrad : E.DEGREES_TO_RADIANS E.fzero = E.fzero) :
    (gyroInit b E s).1 = true ∧
    (gyroInit b E s).2.gyro.initialized = false ∧
    (gyroInit b E s).2.trace = s.trace ++ (candidates b).map (fun k => Event.detect k false) ∧
    ∀ ops : List (Op E.F),
      (runOps b E ops (gyroInit b E s).2).gyro.initialized = false ∧
      (runOps b E ops (gyroInit b E s).2).trace = (gyroInit b E s).2.trace ∧
      Event.initFn ∉ (runOps b E ops (gyroInit b E s).2).trace.drop s.trace.length ∧
      (∀ axis, gyroRateDps E (runOps b E ops (gyroInit b E s).2) axis = 0) ∧
      gyroGetTemperature E (runOps b E ops (gyroInit b E s).2) = 0 ∧
      averageAbsGyroRates E (runOps b E ops (gyroInit b E s).2) = E.fzero ∧
      gyroGetMeasuredRotationRate E (runOps b E ops (gyroInit b E s).2) =
        ⟨E.fzero, E.fzero, E.fzero⟩ := by
  obtain ⟨h1, h2, h3⟩ := gyroInit_of_absent b E s hfail
  have hini : (gyroInit b E s).2.gyro.initialized = false := by
    rw [h2]
    rfl
  refine ⟨h1, hini, h3, ?_⟩
  intro ops
  obtain ⟨h4, h5⟩ := runOps_uninitialized b E ops (gyroInit b E s).2 hini
  have hg : (runOps b E ops (gyroInit b E s).2).gyro = gyroZeroed E := by
    rw [h4, h2]
  refine ⟨?_, h5, ?_, ?_, ?_, ?_, ?_⟩
  · rw [hg]
    rfl
  · rw [h5, h3]
    simp
  · intro axis
    unfold gyroRateDps
    simp [hg, gyroZeroed]
  · unfold gyroGetTemperature
    simp [hg, gyroZeroed]
  · unfold averageAbsGyroRates
    simp [hg, gyroZeroed, habs, hadd, hdiv]
  · unfold gyroGetMeasuredRotationRate
    simp [hg, gyroZeroed, Vec3.map, hrad]

/-! ## Instances -/

/-- The calibration that ended without success is what the accumulator of the
instance holds after `start(2, 32, false)` and the samples (0,0,0) and
(100,0,0). -/
theorem demoCalFailed_reached :
    demoAddValue (demoAddValue (demoStart 2 32 false) ⟨0, 0, 0⟩) ⟨100, 0, 0⟩ = demoCalFailed := by
  norm_num [demoAddValue, demoStart, demoCalFailed]

/-- Claim C1 at scale 1, identity alignments, zero offset (1,2,3) and raw
sample (11,22,33): the conditioned sample is (10,20,30). -/
theorem gyroUpdateAndCalibrate_conditioned_witness :
    (gyroUpdateAndCalibrate demoBuild demoReading demoCalibrated).1 = true ∧
    (gyroUpdateAndCalibrate demoBuild demoReading demoCalibrated).2.gyro.gyroADCf =
      (⟨10, 20, 30⟩ : Vec3 ℚ) := by
  have h := gyroUpdateAndCalibrate_conditioned demoBuild demoReading demoCalibrated
    (by simp [readSucceeds, demoCalibrated, demoState])
    (by simp [atGate, applyGyroCalConfig, demoCalibrated, demoState, demoConfig, demoBuild,
          demoCalDone])
    (by simp [atGate, applyGyroCalConfig, deviceAfterRead, demoCalibrated, demoState, demoConfig,
          demoBuild, demoDevice, Vec3.isInt16, isInt16])
    (by simp [atGate, applyGyroCalConfig, deviceAfterRead, demoCalibrated, demoState, demoConfig,
          demoBuild, demoDevice, Vec3.isInt16, isInt16])
  refine ⟨h.1, ?_⟩
  rw [h.2.1]
  simp [conditionedSample, atGate, applyGyroCalConfig, deviceAfterRead, demoCalibrated,
    demoState, demoConfig, demoBuild, demoDevice, demoSensorAlignment, Vec3.map]

/-- Claim C2 on the iteration whose sample (11,22,33) completes a calibration
of two samples that holds (9,22,35): the accumulator ends done with mean
(10,22,34), and still (0,0,0) is published and `gyroRaw` keeps (7,8,9). -/
theorem gyroUpdate_while_calibrating_witness :
    (gyroUpdateAndCalibrate demoBuild demoReading demoCalibrating).1 = false ∧
    (gyroUpdate demoBuild demoReading demoCalibrating).gyro.gyroADCf = (⟨0, 0, 0⟩ : Vec3 ℚ) ∧
    (gyroUpdate demoBuild demoReading demoCalibrating).gyro.gyroRaw = (⟨7, 8, 9⟩ : Vec3 ℚ) ∧
    (gyroUpdate demoBuild demoReading demoCalibrating).gyroCalibration0.params_state = 2 ∧
    (gyroUpdate demoBuild demoReading demoCalibrating).gyroCalibration0.body.sum =
      (⟨10, 22, 34⟩ : Vec3 ℚ) := by
  have h := gyroUpdate_while_calibrating demoBuild demoReading demoCalibrating
    (by simp [demoCalibrating, demoState])
    (by simp [simulatorActive, demoBuild])
    (by simp [demoCalibrating, demoState, demoConfig])
    (by simp [readSucceeds, demoCalibrating, demoState])
    (by simp [demoCalibrating, demoState, demoCalRunning])
  obtain ⟨h1, _, h3, _, h5, h6, h7, _, _⟩ := h
  refine ⟨h1, h6, ?_, ?_, ?_⟩
  · rw [h7]
    simp [demoCalibrating, demoState]
  · rw [h5, h3]
    norm_num [deviceAfterRead, demoCalibrating, demoState, demoCalRunning, demoAddValue, Vec3.map]
  · rw [h5, h3]
    norm_num [deviceAfterRead, demoCalibrating, demoState, demoCalRunning, demoAddValue, Vec3.map]

/-- Claim C3 with no sensor answering, followed by one of each operation. -/
theorem gyroInit_sensor_absent_witness :
    (gyroInit demoBuild demoNoData
      (demoState (fun _ => false) none demoCalFresh demoConfig)).1 = true ∧
    demoAbsent.gyro.initialized = false ∧
    (runOps demoBuild demoNoData
      [Op.gyroUpdate, Op.gyroUpdateDynamicLpf 1, Op.gyroFilter, Op.gyroStartCalibration,
        Op.gyroReadTemperature] demoAbsent).gyro.initialized = false ∧
    averageAbsGyroRates demoNoData (runOps demoBuild demoNoData
      [Op.gyroUpdate, Op.gyroUpdateDynamicLpf 1, Op.gyroFilter, Op.gyroStartCalibration,
        Op.gyroReadTemperature] demoAbsent) = 0 ∧
    gyroRateDps demoNoData (runOps demoBuild demoNoData
      [Op.gyroUpdate, Op.gyroUpdateDynamicLpf 1, Op.gyroFilter, Op.gyroStartCalibration,
        Op.gyroReadTemperature] demoAbsent) 0 = 0 := by
  have h := gyroInit_sensor_absent demoBuild demoNoData
    (demoState (fun _ => false) none demoCalFresh demoConfig)
    (by intro k d; rfl) (by simp) (by simp) (by simp) (by simp)
  obtain ⟨h1, h2, _, h4⟩ := h
  obtain ⟨g1, _, _, g4, _, g6, _⟩ := h4
    [Op.gyroUpdate, Op.gyroUpdateDynamicLpf 1, Op.gyroFilter, Op.gyroStartCalibration,
      Op.gyroReadTemperature]
  exact ⟨h1, h2, g1, g6, g4 0⟩

/-- Claim C7 with constant c = (1,2,3) and raw sample (11,22,33): nothing is
called, the accumulator is as before but done, the zero offset is c and
(10,20,30) is published on the first iteration, and again on the second. -/
theorem gyroUpdate_calibration_disabled_witness :
    (gyroUpdate demoBuild demoReading demoDisabled).trace = [] ∧
    (gyroUpdate demoBuild demoReading demoDisabled).gyroCalibration0 =
      { demoCalFresh with params_state := 2 } ∧
    (gyroUpdate demoBuild demoReading demoDisabled).gyroDev0.gyroZero = ⟨1, 2, 3⟩ ∧
    (gyroUpdate demoBuild demoReading demoDisabled).gyro.gyroRaw = (⟨10, 20, 30⟩ : Vec3 ℚ) ∧
    (gyroUpdate demoBuild demoReading demoDisabled).gyro.gyroADCf = (⟨10, 20, 30⟩ : Vec3 ℚ) ∧
    (gyroUpdate demoBuild demoReading
      (gyroUpdate demoBuild demoReading demoDisabled)).trace = [] ∧
    (gyroUpdate demoBuild demoReading
      (gyroUpdate demoBuild demoReading demoDisabled)).gyro.gyroRaw = (⟨10, 20, 30⟩ : Vec3 ℚ) := by
  have h := gyroUpdate_calibration_disabled demoBuild demoReading demoDisabled
    (by simp [demoDisabled, demoState])
    (by simp [simulatorActive, demoBuild])
    (by simp [demoBuild])
    (by simp [demoDisabled, demoState])
    (by simp [readSucceeds, demoDisabled, demoState])
    (by intro c hc; simp [hc])
    (by simp [deviceAfterRead, demoDisabled, Vec3.isInt16, isInt16])
    (by simp [demoDisabled, demoState, Vec3.isInt16, isInt16])
  obtain ⟨h1, h2, h3, h4, hd, h5, h6, h7, h8⟩ := h
  have hcfg : (gyroUpdate demoBuild demoReading demoDisabled).gyroConfig =
      { demoConfig with init_gyro_cal_enabled := false, gyro_zero_cal := ⟨1, 2, 3⟩ } := by
    rw [h7]
    simp [demoDisabled, demoState]
  have k := gyroUpdate_calibration_disabled demoBuild demoReading
    (gyroUpdate demoBuild demoReading demoDisabled)
    h8
    (by simp [simulatorActive, demoBuild])
    (by simp [demoBuild])
    (by rw [hcfg])
    (by simp [readSucceeds])
    (by intro c hc; simp [hc])
    (by simp [deviceAfterRead, Vec3.isInt16, isInt16])
    (by rw [hcfg]; simp [Vec3.isInt16, isInt16])
  obtain ⟨k1, _, _, _, _, k5, _, _, _⟩ := k
  have t1 : (gyroUpdate demoBuild demoReading demoDisabled).trace = [] := by
    rw [h1]
    simp [demoDisabled, demoState]
  refine ⟨t1, ?_, ?_, ?_, ?_, ?_, ?_⟩
  · have e : (gyroUpdate demoBuild demoReading demoDisabled).gyroCalibration0 =
        { params_state :=
            (gyroUpdate demoBuild demoReading demoDisabled).gyroCalibration0.params_state,
          body := (gyroUpdate demoBuild demoReading demoDisabled).gyroCalibration0.body } := rfl
    rw [e, h2, h3]
    simp [demoDisabled, demoState]
  · rw [h4]
    simp [demoDisabled, demoState]
  · rw [h5]
    simp [conditionedSample, deviceAfterRead, demoDisabled, demoState, demoDevice,
      demoSensorAlignment, Vec3.map]
  · rw [h6]
    simp [antiAliasing, filterApplyFnPtr.call, conditionedSample, deviceAfterRead, demoDisabled,
      demoState, demoDevice, demoSensorAlignment, Vec3.map]
  · rw [k1, t1]
  · have hdev : (deviceAfterRead demoReading
        (gyroUpdate demoBuild demoReading demoDisabled)) =
        { demoDevice with gyroADCRaw := ⟨11, 22, 33⟩, gyroZero := ⟨1, 2, 3⟩ } := by
      show ({ (gyroUpdate demoBuild demoReading demoDisabled).gyroDev0 with
        gyroADCRaw := ⟨11, 22, 33⟩ } : gyroDev demoReading) = _
      rw [hd]
      simp [deviceAfterRead, demoDisabled, demoState, demoDevice]
    rw [k5, hcfg, hdev]
    simp [conditionedSample, demoDevice, demoSensorAlignment, Vec3.map]

/-- Claim C8 on a state with every stage off, where `gyroFilter` changes
nothing, and on a state whose main low-pass alone is on, with coefficient one
half and held output 0, where (7,8,9) becomes (7/2,4,9/2). -/
theorem gyroFilter_stage_order_witness :
    demoCalibrated.gyro.initialized = true ∧
    gyroFilter demoBuild demoReading demoCalibrated = demoCalibrated ∧
    (gyroFilter demoBuild demoNoData demoHeld).gyro.gyroADCf = (⟨7 / 2, 4, 9 / 2⟩ : Vec3 ℚ) := by
  have hi : demoCalibrated.gyro.initialized = true := by
    simp [demoCalibrated, demoState]
  have h := gyroFilter_stage_order demoBuild demoReading demoCalibrated hi
  have h2 := (gyroFilter_stage_order demoBuild demoNoData demoHeld
    (by simp [demoHeld, demoState])).1
  refine ⟨hi, ?_, ?_⟩
  · exact h.2.2.2 (by simp [demoCalibrated, demoState]) (by intro f x; rfl)
      (by simp [demoCalibrated, demoState]) (by intro axis x; rfl) (by intro axis x; rfl)
      (by simp [demoCalibrated, demoState, demoConfig])
  · rw [h2]
    simp [runStage, smootherStage, secondaryNotchStage, primaryNotchStage, lowPassStage,
      rpmNotchStage, filterApplyFnPtr.call, demoFilterApply, demoFilterHalf, demoHeld, demoState,
      demoBuild, demoConfig, Vec3.get, Vec3.set]
    norm_num

/-- Claim C9 on a flight build in which only the BMI270 answers: the seven
candidates before it are probed in order and fail, its probe is the last, and
an alignment of 5 on entry is back at the default. -/
theorem gyroDetect_autodetect_first_success_witness :
    (gyroDetect demoBuild demoBmi270 demoDevice [] GYRO_AUTODETECT).1 = GYRO_BMI270 ∧
    (gyroDetect demoBuild demoBmi270 demoDevice [] GYRO_AUTODETECT).2.2 =
      [Event.detect GYRO_MPU6000 false, Event.detect GYRO_MPU6500 false,
        Event.detect GYRO_MPU9250 false, Event.detect GYRO_BMI160 false,
        Event.detect GYRO_BMI088 false, Event.detect GYRO_ICM20689 false,
        Event.detect GYRO_ICM42605 false, Event.detect GYRO_BMI270 true] ∧
    (gyroDetect demoBuild demoBmi270 { demoDevice with gyroAlign := 5 } []
      GYRO_AUTODETECT).2.1.gyroAlign = 0 := by
  have h := gyroDetect_autodetect_first_success demoBuild demoBmi270 demoDevice []
  have h2 := (gyroDetect_autodetect_first_success demoBuild demoBmi270
    { demoDevice with gyroAlign := 5 } []).2.2.2.1
    (by intro k d; simp only [demoBmi270, demoExternals]; split <;> rfl)
  refine ⟨?_, ?_, h2⟩
  · rw [h.1]
    simp [candidates, detectOrder, compiledIn, demoBuild, firstSuccess]
  · rw [h.1]
    simp [candidates, detectOrder, compiledIn, demoBuild, firstSuccess]

/-- Claim C10 on the completing iteration of a calibration of two samples:
the add and the reset are called, and the zero offset is the mean
(10,22,34). -/
theorem performGyroCalibration_completion_witness :
    (performGyroCalibration demoBuild demoReading
      { demoCalibrating with gyroDev0 := { demoDevice with gyroADCRaw := ⟨11, 22, 33⟩ } }).trace =
      [Event.zeroCalibrationAddValueV, Event.schedulerResetTaskStatistics] ∧
    (performGyroCalibration demoBuild demoReading
      { demoCalibrating with gyroDev0 := { demoDevice with gyroADCRaw := ⟨11, 22, 33⟩ } }
      ).gyroDev0.gyroZero = ⟨10, 22, 34⟩ := by
  have h := performGyroCalibration_completion demoBuild demoReading
    { demoCalibrating with gyroDev0 := { demoDevice with gyroADCRaw := ⟨11, 22, 33⟩ } }
  obtain ⟨h1, _, h3, _, _⟩ := h
  have hc : demoReading.zeroCalibrationIsCompleteV (performGyroCalibration demoBuild demoReading
      { demoCalibrating with gyroDev0 := { demoDevice with gyroADCRaw := ⟨11, 22, 33⟩ } }
      ).gyroCalibration0 = true := by
    rw [h1]
    norm_num [demoCalibrating, demoState, demoCalRunning, demoAddValue, Vec3.map]
  obtain ⟨g1, g2⟩ := h3 hc
  refine ⟨?_, ?_⟩
  · rw [g1]
    simp [demoCalibrating, demoState]
  · rw [g2, h1]
    norm_num [demoCalibrating, demoState, demoCalRunning, demoAddValue, demoGetZero, Vec3.map,
      toInt16]

/-- Claim C5 fails as stated: on this initialized state, calibration enabled
and ended without success, a `gyroUpdate` whose read succeeds publishes
(10,20,30), not the neutral sample. -/
theorem gyroUpdate_failed_calibration_not_neutral :
    demoFailed.gyro.initialized = true ∧
    demoFailed.gyroConfig.init_gyro_cal_enabled = true ∧
    demoReading.zeroCalibrationIsCompleteV demoFailed.gyroCalibration0 = true ∧
    demoReading.zeroCalibrationIsSuccessfulV demoFailed.gyroCalibration0 = false ∧
    readSucceeds demoReading demoFailed = true ∧
    (gyroUpdate demoBuild demoReading demoFailed).gyro.gyroADCf = (⟨10, 20, 30⟩ : Vec3 ℚ) ∧
    (gyroUpdate demoBuild demoReading demoFailed).gyro.gyroADCf ≠ (⟨0, 0, 0⟩ : Vec3 ℚ) := by
  have hv : (gyroUpdate demoBuild demoReading demoFailed).gyro.gyroADCf =
      (⟨10, 20, 30⟩ : Vec3 ℚ) := by
    simp [gyroUpdate, gyroUpdateAndCalibrate, applyGyroCalConfig, forAxes, gyroUpdateAxis,
      filterApplyFnPtr.call, demoFailed, demoState, demoBuild, demoConfig, demoDevice,
      demoCalFailed, demoSensorAlignment, toInt32, Vec3.get, Vec3.set]
  refine ⟨by simp [demoFailed, demoState], by simp [demoFailed, demoState, demoConfig],
    by simp [demoFailed, demoState, demoCalFailed],
    by simp [demoFailed, demoState, demoCalFailed],
    by simp [readSucceeds, demoFailed, demoState], hv, ?_⟩
  rw [hv]
  simp

/-- The amended claim C5 on the same state. -/
theorem gyroUpdate_after_failed_calibration_witness :
    gyroIsCalibrationComplete demoBuild demoReading demoFailed = false ∧
    (gyroUpdate demoBuild demoReading demoFailed).gyro.gyroRaw = (⟨10, 20, 30⟩ : Vec3 ℚ) := by
  have h := gyroUpdate_after_failed_calibration demoBuild demoReading demoFailed
    (by simp [demoFailed, demoState])
    (by simp [simulatorActive, demoBuild])
    (by simp [demoFailed, demoState, demoConfig])
    (by simp [demoFailed, demoState, demoCalFailed])
    (by simp [demoFailed, demoState, demoCalFailed])
    (by simp [readSucceeds, demoFailed, demoState])
    (by simp [deviceAfterRead, demoFailed, Vec3.isInt16, isInt16])
    (by simp [deviceAfterRead, demoFailed, demoState, demoDevice, Vec3.isInt16, isInt16])
  refine ⟨h.1, ?_⟩
  rw [h.2.1]
  simp [conditionedSample, deviceAfterRead, demoFailed, demoState, demoDevice,
    demoSensorAlignment, Vec3.map]

/-- Claim C6 fails as stated: on this initialized state the read reports no
new data, and the period (`gyroUpdate`, then `gyroFilter`) turns the published
(7,8,9) into (7/2,4,9/2) and advances the held output of the main low-pass
from 0 to the same values. -/
theorem gyroFilter_reprocesses_held_sample :
    demoHeld.gyro.initialized = true ∧
    readSucceeds demoNoData demoHeld = false ∧
    demoHeld.gyro.gyroADCf = (⟨7, 8, 9⟩ : Vec3 ℚ) ∧
    (gyroFilter demoBuild demoNoData (gyroUpdate demoBuild demoNoData demoHeld)).gyro.gyroADCf =
      (⟨7 / 2, 4, 9 / 2⟩ : Vec3 ℚ) ∧
    (gyroFilter demoBuild demoNoData (gyroUpdate demoBuild demoNoData demoHeld)).gyro.gyroADCf ≠
      demoHeld.gyro.gyroADCf ∧
    (gyroFilter demoBuild demoNoData (gyroUpdate demoBuild demoNoData demoHeld)).gyroLpf2State ≠
      demoHeld.gyroLpf2State := by
  have hu : gyroUpdate demoBuild demoNoData demoHeld = demoHeld := by
    simp [gyroUpdate, gyroUpdateAndCalibrate, demoHeld, demoState, demoBuild]
  have hv : (gyroFilter demoBuild demoNoData demoHeld).gyro.gyroADCf =
      (⟨7 / 2, 4, 9 / 2⟩ : Vec3 ℚ) := by
    simp [gyroFilter, gyroFilterRetune, forAxes, gyroFilterAxis, filterApplyFnPtr.call,
      demoFilterApply, demoFilterHalf, demoHeld, demoState, demoBuild, demoConfig, Vec3.get,
      Vec3.set]
    norm_num
  have hs : (gyroFilter demoBuild demoNoData demoHeld).gyroLpf2State =
      (⟨{ demoFilterHalf with state := 7 / 2 }, { demoFilterHalf with state := 4 },
        { demoFilterHalf with state := 9 / 2 }⟩ : Vec3 demoFilter) := by
    simp [gyroFilter, gyroFilterRetune, forAxes, gyroFilterAxis, filterApplyFnPtr.call,
      demoFilterApply, demoFilterHalf, demoHeld, demoState, demoBuild, demoConfig, Vec3.get,
      Vec3.set]
    norm_num
  rw [hu, hv, hs]
  refine ⟨by simp [demoHeld, demoState], by simp [readSucceeds, demoHeld, demoState],
    by simp [demoHeld, demoState], rfl, ?_, ?_⟩
  · simp [demoHeld, demoState]
  · simp [demoHeld, demoState, demoFilterHalf]

/-- The amended claim C6 on the same state: the period without new data takes
`demoHeld` to `demoSettled` (published vector and main low-pass at
(7/2,4,9/2), `gyroRaw` still (7,8,9)), and a further period without new data
runs the cascade again and returns the very same state, the low-pass having
settled on the held value. -/
theorem gyroUpdate_gyroFilter_no_new_data_witness :
    (gyroUpdate demoBuild demoNoData demoHeld).gyro = demoHeld.gyro ∧
    gyroFilter demoBuild demoNoData (gyroUpdate demoBuild demoNoData demoHeld) = demoSettled ∧
    demoSettled.gyro.gyroRaw = (⟨7, 8, 9⟩ : Vec3 ℚ) ∧
    demoSettled.gyro.gyroADCf = (⟨7 / 2, 4, 9 / 2⟩ : Vec3 ℚ) ∧
    gyroFilter demoBuild demoNoData (gyroUpdate demoBuild demoNoData demoSettled) =
      demoSettled := by
  have h := gyroUpdate_gyroFilter_no_new_data demoBuild demoNoData demoHeld
    (by simp [demoHeld, demoState])
    (by simp [simulatorActive, demoBuild])
    (by simp [readSucceeds, demoHeld, demoState])
  have k := gyroUpdate_gyroFilter_no_new_data demoBuild demoNoData demoSettled
    (by simp [demoSettled, demoHeld, demoState])
    (by simp [simulatorActive, demoBuild])
    (by simp [readSucceeds, demoSettled, demoHeld, demoState])
  obtain ⟨h1, _, _, h4, _⟩ := h
  obtain ⟨_, _, _, k4, _⟩ := k
  refine ⟨?_, ?_, ?_, ?_, ?_⟩
  · rw [h1]
  · rw [h4 (by simp [postFilter, runStage, primaryNotchStage, demoHeld, demoState])]
    simp [postFilter, runStage, smootherStage, secondaryNotchStage, primaryNotchStage,
      lowPassStage, rpmNotchStage, filterApplyFnPtr.call, demoFilterApply, demoFilterHalf,
      deviceAfterRead, demoSettled, demoHeld, demoState, demoBuild, demoConfig, Vec3.get,
      Vec3.set]
    norm_num
  · simp [demoSettled, demoHeld, demoState]
  · simp [demoSettled]
  · rw [k4 (by simp [postFilter, runStage, primaryNotchStage, demoSettled, demoHeld, demoState])]
    simp [postFilter, runStage, smootherStage, secondaryNotchStage, primaryNotchStage,
      lowPassStage, rpmNotchStage, filterApplyFnPtr.call, demoFilterApply, demoFilterHalf,
      deviceAfterRead, demoSettled, demoHeld, demoState, demoBuild, demoConfig, Vec3.get,
      Vec3.set]

/-- Claim C4, the code at the failing input.  In the state `gyroInit` leaves
when no sensor answers, `gyro.initialized` is false and `gyroUpdate`,
`gyroFilter`, `gyroStartCalibration` and `gyroReadTemperature` change nothing,
but `gyroUpdateDynamicLpf(1)` has no such guard: it rewrites the time constant
of the main low-pass on every axis, from 0 to 113/710. -/
theorem gyroUpdateDynamicLpf_changes_uninitialized_state :
    demoAbsent.gyro.initialized = false ∧
    gyroUpdate demoBuild demoNoData demoAbsent = demoAbsent ∧
    gyroFilter demoBuild demoNoData demoAbsent = demoAbsent ∧
    gyroStartCalibration demoBuild demoNoData demoAbsent = demoAbsent ∧
    (gyroReadTemperature demoNoData demoAbsent).2 = demoAbsent ∧
    demoAbsent.gyroLpf2State = ⟨demoFilterZero, demoFilterZero, demoFilterZero⟩ ∧
    (gyroUpdateDynamicLpf demoNoData demoAbsent 1).gyroLpf2State =
      ⟨{ demoFilterZero with RC := 113 / 710 }, { demoFilterZero with RC := 113 / 710 },
        { demoFilterZero with RC := 113 / 710 }⟩ ∧
    gyroUpdateDynamicLpf demoNoData demoAbsent 1 ≠ demoAbsent := by
  have hi : demoAbsent.gyro.initialized = false :=
    (gyroInit_of_absent demoBuild demoNoData _ (by intro k d; rfl)).2.1 ▸ rfl
  obtain ⟨n1, n2, n3, n4⟩ := uninitialized_noop demoBuild demoNoData demoAbsent hi
  have h0 : demoAbsent.gyroLpf2State = ⟨demoFilterZero, demoFilterZero, demoFilterZero⟩ := by
    simp [demoAbsent, gyroInit, gyroDetect, caseMPU6000_eq, candidates, detectOrder, compiledIn,
      demoBuild, firstSuccess, demoState]
  have ht : demoAbsent.gyroConfig.gyro_main_lpf_type = 0 := by
    simp [demoAbsent, gyroInit, gyroDetect, caseMPU6000_eq, candidates, detectOrder, compiledIn,
      demoBuild, firstSuccess, demoState, demoConfig]
  have h1 : (gyroUpdateDynamicLpf demoNoData demoAbsent 1).gyroLpf2State =
      ⟨{ demoFilterZero with RC := 113 / 710 }, { demoFilterZero with RC := 113 / 710 },
        { demoFilterZero with RC := 113 / 710 }⟩ := by
    simp [gyroUpdateDynamicLpf, ht, forAxes, updateCutoffPt1Axis, h0, demoFilterUpdateCutoff,
      demoComputeRC, demoFilterZero, Vec3.get, Vec3.set]
  refine ⟨hi, n1, n2, n3, by rw [n4], h0, h1, ?_⟩
  intro hcontra
  rw [hcontra, h0] at h1
  simp [demoFilterZero] at h1
  norm_num at h1

end Gyro
